import Mathlib

/-!
Verification of the SAV (Scalar Auxiliary Variable) time-stepping solver
from `src/python/sav_solver.py` and its results sink from
`src/python/results_storage.py`.

The numerical code is embedded shallowly over the real numbers: numpy
vectors of length `N` become `Fin N → ℝ`, elementwise numpy arithmetic
becomes pointwise real arithmetic, `np.sqrt` becomes `Real.sqrt`,
`np.sign` becomes `Real.sign`, and the matrix-vector / dot products
become finite sums.  Exact real arithmetic plays the role of
"floating point up to rounding".
-/

set_option maxHeartbeats 1600000

noncomputable section

namespace SAVSim

/-- Length-`N` numpy vector. -/
abbrev Vec (N : ℕ) := Fin N → ℝ

/-- `u.dot(v)` of numpy: the sum of the elementwise products. -/
def dot {N : ℕ} (u v : Vec N) : ℝ := ∑ i, u i * v i

theorem dot_sub_right {N : ℕ} (u v w : Vec N) :
    dot u (fun i => v i - w i) = dot u v - dot u w := by
  simp [dot, mul_sub, Finset.sum_sub_distrib]

theorem dot_add_right {N : ℕ} (u v w : Vec N) :
    dot u (fun i => v i + w i) = dot u v + dot u w := by
  simp [dot, mul_add, Finset.sum_add_distrib]

theorem dot_smul_right {N : ℕ} (c : ℝ) (u v : Vec N) :
    dot u (fun i => c * v i) = c * dot u v := by
  simp [dot, Finset.mul_sum]
  exact Finset.sum_congr rfl fun i _ => by ring

theorem dot_smul_left {N : ℕ} (c : ℝ) (u v : Vec N) :
    dot (fun i => c * u i) v = c * dot u v := by
  simp [dot, Finset.mul_sum]
  exact Finset.sum_congr rfl fun i _ => by ring

theorem dot_add_left {N : ℕ} (u v w : Vec N) :
    dot (fun i => u i + v i) w = dot u w + dot v w := by
  simp [dot, add_mul, Finset.sum_add_distrib]

theorem dot_comm {N : ℕ} (u v : Vec N) : dot u v = dot v u := by
  simp [dot, mul_comm]

/-- The model contract of §4.1: what `SAVSolver` consumes from a `Model`.
`M` and `J0` are the diagonal mass and reference operators (the Python code
also allows scalars, which act as constant diagonals), the `*_op` fields are
the linear stiffness / dissipation operators, `Rmid` the state-dependent
dissipation diagonal, `G` the input coupling, `Enl`/`Fnl` the nonlinear
potential and its gradient, and `EandFnl` the combined evaluator. -/
structure Model (N Nu : ℕ) where
  M : Vec N
  J0 : Vec N
  K_op : Vec N → Vec N
  Rsv_op : Vec N → Vec N
  Rmid : Vec N → Vec N
  G : Vec N → (Fin N → Fin Nu → ℝ)
  Enl : Vec N → ℝ
  Fnl : Vec N → Vec N
  EandFnl : Vec N → ℝ × Vec N

/-- The solver object.  `__init__` stores the model, the sample rate and the
drift-control gain; the numerical parameters `dt`, `dt2`, `C0`, `Num_eps`
and `M_J0dt` are computed from them once and never mutated, so they are
embedded as derived definitions below. -/
structure SAVSolver (N Nu : ℕ) where
  model : Model N Nu
  sr : ℝ
  lambda0 : ℝ

namespace SAVSolver

variable {N Nu : ℕ}

/-- `self.dt = 1/self.sr`. -/
def dt (s : SAVSolver N Nu) : ℝ := 1 / s.sr

/-- `self.dt2 = self.dt**2`. -/
def dt2 (s : SAVSolver N Nu) : ℝ := s.dt ^ 2

/-- `self.C0 = 0` (shifting constant). -/
def C0 (s : SAVSolver N Nu) : ℝ := 0

/-- `self.Num_eps = 1e-16` (numerical epsilon). -/
def Num_eps (s : SAVSolver N Nu) : ℝ := 1 / 10 ^ 16

/-- `self.M_J0dt = self.model.M / (self.dt * self.model.J0)`. -/
def M_J0dt (s : SAVSolver N Nu) : Vec N :=
  fun i => s.model.M i / (s.dt * s.model.J0 i)

theorem Num_eps_pos (s : SAVSolver N Nu) : 0 < s.Num_eps := by
  have : (0:ℝ) < 10 ^ 16 := by positivity
  simp only [Num_eps]
  positivity

/-- `Ek_tilde(p)`: kinetic part of the pseudo-energy preserved by the scheme. -/
def Ek_tilde (s : SAVSolver N Nu) (p : Vec N) : ℝ :=
  0.5 * dot p (fun i =>
    1 / s.model.M i * p i
    - s.dt2 / 4 * (s.model.J0 i / s.model.M i)
        * s.model.K_op (fun j => s.model.J0 j / s.model.M j * p j) i
    - s.dt / (2 * s.model.M i) * s.model.Rsv_op (fun j => p j / s.model.M j) i)

/-- `Ek(p)`: kinetic part of the continuous-time energy. -/
def Ek (s : SAVSolver N Nu) (p : Vec N) : ℝ :=
  0.5 * dot p (fun i => 1 / s.model.M i * p i)

/-- `Ep_lin(q) = 0.5 * q.dot(K_op(q))`. -/
def Ep_lin (s : SAVSolver N Nu) (q : Vec N) : ℝ :=
  0.5 * dot q (s.model.K_op q)

/-- `Ep_nl(q) = Enl(q)`. -/
def Ep_nl (s : SAVSolver N Nu) (q : Vec N) : ℝ := s.model.Enl q

/-- `Ep_nl_sav(r) = 0.5*r*r`. -/
def Ep_nl_sav (s : SAVSolver N Nu) (r : ℝ) : ℝ := 0.5 * r * r

/-- `E_tilde(q, p, r)`: the preserved pseudo-energy (eq 17). -/
def E_tilde (s : SAVSolver N Nu) (q p : Vec N) (r : ℝ) : ℝ :=
  s.Ek_tilde p + s.Ep_lin q + s.Ep_nl_sav r

/-- `E_orig(q, p)`: evaluation of the original continuous-time energy. -/
def E_orig (s : SAVSolver N Nu) (q p : Vec N) : ℝ :=
  s.Ep_lin q + s.Ep_nl q + s.Ek p

/-- `P_stored(Enow, Enext) = (Enext - Enow)/dt` (eq 16). -/
def P_stored (s : SAVSolver N Nu) (Enow Enext : ℝ) : ℝ :=
  (Enext - Enow) / s.dt

/-- `P_diss(pnow, pnext, Rmid)` (eq 16); `mutv = (pnow+pnext)/(2*M)`. -/
def P_diss (s : SAVSolver N Nu) (pnow pnext Rmid : Vec N) : ℝ :=
  let mutv : Vec N := fun i => (pnow i + pnext i) / (2 * s.model.M i)
  dot mutv (fun i => Rmid i * mutv i + s.model.Rsv_op mutv i)

/-- `P_ext(pnow, pnext, G, u)`: the code computes `-mutv.dot(G * u)` with the
numpy ELEMENTWISE product `G * u` (broadcasting `u` over the rows of `G`),
not the matrix-vector product `G @ u`, so the result is a length-`Nu` numpy
array; it is a single number only when `Nu = 1`. -/
def P_ext (s : SAVSolver N Nu) (pnow pnext : Vec N)
    (G : Fin N → Fin Nu → ℝ) (u : Vec Nu) : Vec Nu :=
  let mutv : Vec N := fun i => (pnow i + pnext i) / (2 * s.model.M i)
  fun j => -(∑ i, mutv i * (G i j * u j))

/-- `P_tot = P_stored + P_diss + P_ext` (eq 16).  Because `P_ext` is a
length-`Nu` array, numpy broadcasting makes the result a length-`Nu` array
as well. -/
def P_tot (s : SAVSolver N Nu) (Enow Enext : ℝ) (pnow pnext Rmid : Vec N)
    (G : Fin N → Fin Nu → ℝ) (u : Vec Nu) : Vec Nu :=
  fun j => s.P_stored Enow Enext + s.P_diss pnow pnext Rmid
    + s.P_ext pnow pnext G u j

/-- `A0_inv(Rmid) = 2*dt2*ones(N) / (2*M + dt*Rmid)` (eq 19h). -/
def A0_inv (s : SAVSolver N Nu) (Rmid : Vec N) : Vec N :=
  fun i => 2 * s.dt2 * 1 / (2 * s.model.M i + s.dt * Rmid i)

/-- `B_op(q)` (eq 19b, 19e). -/
def B_op (s : SAVSolver N Nu) (q : Vec N) : Vec N :=
  fun i => 2 * s.model.M i / (s.dt2 * s.model.J0 i) * q i
    - s.model.J0 i * s.model.K_op q i
    - s.model.Rsv_op (fun j => q j / s.model.J0 j) i / s.dt

/-- `C_op(q, g, Rmid)` (eq 19b, 19f). -/
def C_op (s : SAVSolver N Nu) (q g Rmid : Vec N) : Vec N :=
  fun i => -(1 *
    ((s.model.M i / s.dt2 - Rmid i / (2 * s.dt)) * q i / s.model.J0 i
      - 0.25 * g i * dot g (fun j => q j / s.model.J0 j)
      - s.model.Rsv_op (fun j => q j / s.model.J0 j) i / s.dt))

/-- The regularized denominator of `g`: `sqrt(2*Enl + C0 + Num_eps)`, where
`Enl` is the energy part of `EandFnl(q)`. -/
def gDen (s : SAVSolver N Nu) (q : Vec N) : ℝ :=
  Real.sqrt (2 * (s.model.EandFnl q).1 + s.C0 + s.Num_eps)

/-- `g(q) = J0 * Fnl / sqrt(2*Enl + C0 + Num_eps)` (eq 9b), with
`Enl, Fnl = EandFnl(q)`. -/
noncomputable def g (s : SAVSolver N Nu) (q : Vec N) : Vec N :=
  fun i => s.model.J0 i * (s.model.EandFnl q).2 i / s.gDen q

/-- `self.epsilon = r - sqrt(2*Enl(q) + C0)`: the drift diagnostic computed
inside `g_mod`. -/
noncomputable def epsilonDrift (s : SAVSolver N Nu) (q : Vec N) (r : ℝ) : ℝ :=
  r - Real.sqrt (2 * s.model.Enl q + s.C0)

/-- `g_mod(q, p, r) = -lambda0 * epsilon * M * sign(p) / (|p| + Num_eps)`. -/
noncomputable def g_mod (s : SAVSolver N Nu) (q p : Vec N) (r : ℝ) : Vec N :=
  fun i => -s.lambda0 * s.epsilonDrift q r * s.model.M i * Real.sign (p i)
    / (|p i| + s.Num_eps)

/-- Line 371 of `time_step`: `den = 4 + gn.dot(A0_inv_n * gn)` (eq 19g). -/
def den (s : SAVSolver N Nu) (A0invn gn : Vec N) : ℝ :=
  4 + dot gn (fun i => A0invn i * gn i)

/-- Lines 375-376 of `time_step`: the Sherman-Morrison closed form
`qnext = J0*A0_inv*RHS - J0*A0_inv*g/den * g.dot(A0_inv*RHS)`
(eq 19b + 19g). -/
def qnextSM (s : SAVSolver N Nu) (A0invn gn RHSn : Vec N) : Vec N :=
  fun i => s.model.J0 i * A0invn i * RHSn i
    - s.model.J0 i * A0invn i * gn i / s.den A0invn gn
        * dot gn (fun k => A0invn k * RHSn k)

/-- Everything `time_step` returns or writes to `self`: the returned tuple
`(qnext, rnext, qn, pn, epsilon)` plus the mutated caches
`self.gn, self.Gn, self.Rmidn, self.A0_inv_n, self.RHSn`. -/
structure StepResult (N Nu : ℕ) where
  qnext : Vec N
  rnext : ℝ
  qn : Vec N
  pn : Vec N
  epsilon : ℝ
  gn : Vec N
  Gn : Fin N → Fin Nu → ℝ
  Rmidn : Vec N
  A0invn : Vec N
  RHSn : Vec N

/-- `time_step(qlast, qnow, rn, unow, ConstantRmid)`.  `Rmidc` / `A0invc`
are the cached `self.Rmidn` / `self.A0_inv_n` on entry; they are only read
when `ConstantRmid` is true, otherwise both are recomputed from `qnow`.
The input coupling uses the true matrix-vector product `Gn @ unow`. -/
noncomputable def time_step (s : SAVSolver N Nu) (Rmidc A0invc : Vec N)
    (qlast qnow : Vec N) (rn : ℝ) (unow : Vec Nu) (ConstantRmid : Bool) :
    StepResult N Nu :=
  let pn : Vec N := fun i => (qnow i - qlast i) * s.M_J0dt i
  let qn : Vec N := fun i => (qlast i + qnow i) / 2
  let gn : Vec N := fun i => s.g qnow i + s.g_mod qn pn rn i
  let Gn := s.model.G qnow
  let Rmidn := if ConstantRmid then Rmidc else s.model.Rmid qnow
  let A0invn := if ConstantRmid then A0invc else s.A0_inv (s.model.Rmid qnow)
  let RHSn : Vec N := fun i =>
    s.B_op qnow i + s.C_op qlast gn Rmidn i - gn i * rn + ∑ j, Gn i j * unow j
  let qnext := s.qnextSM A0invn gn RHSn
  let rnext := rn + dot gn (fun i => (qnext i - qlast i) / (2 * s.model.J0 i))
  ⟨qnext, rnext, qn, pn, s.epsilonDrift qn rn, gn, Gn, Rmidn, A0invn, RHSn⟩

section StepComponents

variable (s : SAVSolver N Nu) (Rmidc A0invc qlast qnow : Vec N) (rn : ℝ)
variable (unow : Vec Nu) (b : Bool)

theorem time_step_pn :
    (s.time_step Rmidc A0invc qlast qnow rn unow b).pn
      = fun i => (qnow i - qlast i) * s.M_J0dt i := rfl

theorem time_step_qn :
    (s.time_step Rmidc A0invc qlast qnow rn unow b).qn
      = fun i => (qlast i + qnow i) / 2 := rfl

theorem time_step_epsilon :
    (s.time_step Rmidc A0invc qlast qnow rn unow b).epsilon
      = s.epsilonDrift (fun i => (qlast i + qnow i) / 2) rn := rfl

theorem time_step_gn :
    (s.time_step Rmidc A0invc qlast qnow rn unow b).gn
      = fun i => s.g qnow i
          + s.g_mod (fun k => (qlast k + qnow k) / 2)
              (fun k => (qnow k - qlast k) * s.M_J0dt k) rn i := rfl

theorem time_step_Gn :
    (s.time_step Rmidc A0invc qlast qnow rn unow b).Gn = s.model.G qnow := rfl

theorem time_step_Rmidn :
    (s.time_step Rmidc A0invc qlast qnow rn unow b).Rmidn
      = if b then Rmidc else s.model.Rmid qnow := rfl

theorem time_step_A0invn :
    (s.time_step Rmidc A0invc qlast qnow rn unow b).A0invn
      = if b then A0invc else s.A0_inv (s.model.Rmid qnow) := rfl

theorem time_step_RHSn :
    (s.time_step Rmidc A0invc qlast qnow rn unow b).RHSn
      = fun i => s.B_op qnow i
          + s.C_op qlast (s.time_step Rmidc A0invc qlast qnow rn unow b).gn
              (s.time_step Rmidc A0invc qlast qnow rn unow b).Rmidn i
          - (s.time_step Rmidc A0invc qlast qnow rn unow b).gn i * rn
          + ∑ j, (s.time_step Rmidc A0invc qlast qnow rn unow b).Gn i j * unow j
      := rfl

theorem time_step_qnext :
    (s.time_step Rmidc A0invc qlast qnow rn unow b).qnext
      = s.qnextSM (s.time_step Rmidc A0invc qlast qnow rn unow b).A0invn
          (s.time_step Rmidc A0invc qlast qnow rn unow b).gn
          (s.time_step Rmidc A0invc qlast qnow rn unow b).RHSn := rfl

theorem time_step_rnext :
    (s.time_step Rmidc A0invc qlast qnow rn unow b).rnext
      = rn + dot (s.time_step Rmidc A0invc qlast qnow rn unow b).gn
          (fun i => ((s.time_step Rmidc A0invc qlast qnow rn unow b).qnext i
              - qlast i) / (2 * s.model.J0 i)) := rfl

end StepComponents

/-- The rolling state owned by `integrate`, together with the caches on the
solver object that `time_step` mutates. -/
structure RunState (N Nu : ℕ) where
  qlast : Vec N
  qnow : Vec N
  rnow : ℝ
  Rmidn : Vec N
  A0invn : Vec N
  Gn : Fin N → Fin Nu → ℝ
  gn : Vec N
  epsilon : ℝ

/-- State just before the main loop of `integrate` (lines 404-412): the
split initial conditions, `r0 = sqrt(2*Enl(q0) + C0)`, and — only when
`ConstantRmid` is true — the caches `Rmidn = Rmid(q0)`,
`A0_inv_n = A0_inv(Rmidn)`.  With `ConstantRmid = false` the caches keep
the `np.zeros` initialization of `__init__` (they are recomputed inside
`time_step` before first use); `self.epsilon` does not exist before the
first step and is embedded as `0`. -/
def initState (s : SAVSolver N Nu) (q0 u0 : Vec N) (ConstantRmid : Bool) :
    RunState N Nu where
  qlast := fun i => q0 i - u0 i * s.dt / 2
  qnow := fun i => q0 i + u0 i * s.dt / 2
  rnow := Real.sqrt (2 * s.model.Enl q0 + s.C0)
  Rmidn := if ConstantRmid then s.model.Rmid q0 else fun _ => 0
  A0invn := if ConstantRmid then s.A0_inv (s.model.Rmid q0) else fun _ => 0
  Gn := fun _ _ => 0
  gn := fun _ => 0
  epsilon := 0

/-- One iteration of the main loop of `integrate`: call `time_step` and
shift the rolling state `(qlast, qnow, rnow)`. -/
def stepState (s : SAVSolver N Nu) (st : RunState N Nu) (unow : Vec Nu)
    (ConstantRmid : Bool) : RunState N Nu :=
  let out := s.time_step st.Rmidn st.A0invn st.qlast st.qnow st.rnow unow
    ConstantRmid
  { qlast := st.qnow, qnow := out.qnext, rnow := out.rnext,
    Rmidn := out.Rmidn, A0invn := out.A0invn, Gn := out.Gn, gn := out.gn,
    epsilon := out.epsilon }

/-- The sequence of states of an integration run: `states ... n` is the
rolling state before loop iteration `n`; iteration `n` feeds the input
sample `u_func((n + 0.5) * dt)` to `time_step`. -/
def states (s : SAVSolver N Nu) (q0 u0 : Vec N) (u_func : ℝ → Vec Nu)
    (ConstantRmid : Bool) : ℕ → RunState N Nu
  | 0 => s.initState q0 u0 ConstantRmid
  | n + 1 => s.stepState (s.states q0 u0 u_func ConstantRmid n)
      (u_func ((n + 0.5) * s.dt)) ConstantRmid

/-- The momentum diagnostic `pn` that loop iteration `n` stores at index
`n`: it is computed by `time_step` from the state before the step. -/
def traj_p (s : SAVSolver N Nu) (q0 u0 : Vec N) (u_func : ℝ → Vec Nu)
    (ConstantRmid : Bool) (n : ℕ) : Vec N :=
  fun i => ((s.states q0 u0 u_func ConstantRmid n).qnow i
    - (s.states q0 u0 u_func ConstantRmid n).qlast i) * s.M_J0dt i

/-- The midpoint coordinate diagnostic `qn` stored at index `n`. -/
def traj_qmid (s : SAVSolver N Nu) (q0 u0 : Vec N) (u_func : ℝ → Vec Nu)
    (ConstantRmid : Bool) (n : ℕ) : Vec N :=
  fun i => ((s.states q0 u0 u_func ConstantRmid n).qlast i
    + (s.states q0 u0 u_func ConstantRmid n).qnow i) / 2

/-- The pseudo-energy `Etot[n] = Ek_tilde(p) + Ep_lin(q) + Ep_nl_sav(r)`
that the storage sink computes from the diagnostics stored at index `n`. -/
def traj_E (s : SAVSolver N Nu) (q0 u0 : Vec N) (u_func : ℝ → Vec Nu)
    (ConstantRmid : Bool) (n : ℕ) : ℝ :=
  s.E_tilde (s.traj_qmid q0 u0 u_func ConstantRmid n)
    (s.traj_p q0 u0 u_func ConstantRmid n)
    (s.states q0 u0 u_func ConstantRmid n).rnow

end SAVSolver

/-- Modelled from the spec: the structured implicit system
`(diag(1/A0_inv) + 0.25 * outer(g,g)) · x`, the left-hand side that the
Sherman-Morrison shortcut of `time_step` is claimed to solve. -/
def linSystemLHS {N : ℕ} (A0inv gv x : Vec N) : Vec N :=
  fun i => 1 / A0inv i * x i + 0.25 * gv i * dot gv x

namespace SAVSolver

theorem dt_pos (s : SAVSolver N Nu) (hsr : 0 < s.sr) : 0 < s.dt := by
  unfold dt; positivity

theorem dt2_pos (s : SAVSolver N Nu) (hsr : 0 < s.sr) : 0 < s.dt2 := by
  have h := s.dt_pos hsr
  unfold dt2
  exact pow_pos h 2

theorem A0_inv_pos (s : SAVSolver N Nu) (Rmid : Vec N) (hsr : 0 < s.sr)
    (hpos : ∀ i, 0 < 2 * s.model.M i + s.dt * Rmid i) (i : Fin N) :
    0 < s.A0_inv Rmid i := by
  have h2 := s.dt2_pos hsr
  unfold A0_inv
  exact div_pos (by linarith) (hpos i)

theorem den_pos (s : SAVSolver N Nu) (A0invn gn : Vec N)
    (hA : ∀ i, 0 < A0invn i) : 0 < s.den A0invn gn := by
  have h : 0 ≤ dot gn (fun i => A0invn i * gn i) := by
    unfold dot
    apply Finset.sum_nonneg
    intro i _
    show (0:ℝ) ≤ gn i * (A0invn i * gn i)
    have h1 : gn i * (A0invn i * gn i) = A0invn i * gn i ^ 2 := by ring
    rw [h1]
    exact mul_nonneg (hA i).le (sq_nonneg _)
  unfold den
  linarith

/-- The Sherman-Morrison update divided elementwise by `J0`, in closed
form. -/
theorem qnextSM_div_J0 (s : SAVSolver N Nu) (A0invn gn RHSn : Vec N)
    (hJ0 : ∀ i, s.model.J0 i ≠ 0) (k : Fin N) :
    s.qnextSM A0invn gn RHSn k / s.model.J0 k
      = A0invn k * RHSn k
        - A0invn k * gn k / s.den A0invn gn
            * dot gn (fun j => A0invn j * RHSn j) := by
  unfold qnextSM
  rw [div_eq_iff (hJ0 k)]
  ring

/-- Core algebra of claim C2: the closed-form `qnext` of lines 371-376
satisfies the diagonal-plus-rank-1 system `(diag(1/A0_inv) +
0.25*outer(g,g)) (qnext/J0) = RHS` for any positive diagonal `A0_inv`. -/
theorem qnextSM_solves (s : SAVSolver N Nu) (A0invn gn RHSn : Vec N)
    (hA : ∀ i, 0 < A0invn i) (hJ0 : ∀ i, s.model.J0 i ≠ 0) :
    linSystemLHS A0invn gn
      (fun k => s.qnextSM A0invn gn RHSn k / s.model.J0 k) = RHSn := by
  have hden := s.den_pos A0invn gn hA
  have hden0 : s.den A0invn gn ≠ 0 := ne_of_gt hden
  set S0 := dot gn (fun j => A0invn j * RHSn j) with hS0def
  set T := dot gn (fun i => A0invn i * gn i) with hTdef
  have hdenT : s.den A0invn gn = 4 + T := rfl
  have h4T : (4:ℝ) + T ≠ 0 := by rw [← hdenT]; exact hden0
  have h1 : ∀ k, s.qnextSM A0invn gn RHSn k / s.model.J0 k
      = A0invn k * RHSn k - A0invn k * gn k / s.den A0invn gn * S0 :=
    fun k => s.qnextSM_div_J0 A0invn gn RHSn hJ0 k
  have hdotx : dot gn (fun k => s.qnextSM A0invn gn RHSn k / s.model.J0 k)
      = 4 * S0 / s.den A0invn gn := by
    have hfun : (fun k => s.qnextSM A0invn gn RHSn k / s.model.J0 k)
        = fun k =>
            A0invn k * RHSn k - A0invn k * gn k / s.den A0invn gn * S0 :=
      funext h1
    calc dot gn (fun k => s.qnextSM A0invn gn RHSn k / s.model.J0 k)
        = dot gn (fun k =>
            A0invn k * RHSn k - A0invn k * gn k / s.den A0invn gn * S0) := by
          rw [hfun]
      _ = S0 - S0 / s.den A0invn gn * T := by
          rw [dot_sub_right]
          have h2 : dot gn (fun k => A0invn k * gn k / s.den A0invn gn * S0)
              = S0 / s.den A0invn gn * T := by
            rw [hTdef]
            unfold dot
            rw [Finset.mul_sum]
            exact Finset.sum_congr rfl fun k _ => by ring
          rw [h2, hS0def]
      _ = 4 * S0 / s.den A0invn gn := by
          rw [hdenT]
          field_simp
          ring
  funext i
  have hAi0 : A0invn i ≠ 0 := ne_of_gt (hA i)
  show 1 / A0invn i * (s.qnextSM A0invn gn RHSn i / s.model.J0 i)
      + 0.25 * gn i
          * dot gn (fun k => s.qnextSM A0invn gn RHSn k / s.model.J0 k)
    = RHSn i
  rw [hdotx, h1 i, hdenT]
  field_simp
  ring

end SAVSolver

/-- Expansion of the quadratic form of a linear symmetric operator on a
linear combination `z = c*x + d*y` of two vectors. -/
theorem dot_bilin {N : ℕ} (Kf : Vec N → Vec N)
    (hlin : ∀ (a b : ℝ) (u v : Vec N),
      Kf (fun i => a * u i + b * v i) = fun i => a * Kf u i + b * Kf v i)
    (hsym : ∀ u v : Vec N, dot u (Kf v) = dot v (Kf u))
    (z x y : Vec N) (c d : ℝ) (hz : z = fun i => c * x i + d * y i) :
    dot z (Kf z)
      = c ^ 2 * dot x (Kf x) + 2 * (c * d) * dot y (Kf x)
        + d ^ 2 * dot y (Kf y) := by
  rw [hz, hlin c d x y]
  have h1 : dot (fun i => c * x i + d * y i)
      (fun i => c * Kf x i + d * Kf y i)
      = c ^ 2 * dot x (Kf x) + c * d * dot x (Kf y) + c * d * dot y (Kf x)
        + d ^ 2 * dot y (Kf y) := by
    simp only [dot]
    rw [Finset.mul_sum, Finset.mul_sum, Finset.mul_sum, Finset.mul_sum,
      ← Finset.sum_add_distrib, ← Finset.sum_add_distrib,
      ← Finset.sum_add_distrib]
    exact Finset.sum_congr rfl fun i _ => by ring
  rw [h1, hsym x y]
  ring

namespace SAVSolver

/-- `Ek_tilde` evaluated at a momentum of the form `M * v`: the continuous
kinetic part plus the two discrete correction terms. -/
theorem Ek_tilde_eval (s : SAVSolver N Nu) (hM : ∀ i, s.model.M i ≠ 0)
    (v : Vec N) :
    s.Ek_tilde (fun i => s.model.M i * v i)
      = 0.5 * (∑ i, s.model.M i * v i ^ 2)
        - s.dt2 / 8 * dot (fun i => s.model.J0 i * v i)
            (s.model.K_op (fun i => s.model.J0 i * v i))
        - s.dt / 4 * dot v (s.model.Rsv_op v) := by
  simp only [Ek_tilde]
  have h1 : (fun j => s.model.J0 j / s.model.M j * (s.model.M j * v j))
      = fun j => s.model.J0 j * v j := by
    funext j
    field_simp [hM j]
    ring
  have h2 : (fun j => s.model.M j * v j / s.model.M j) = v := by
    funext j
    rw [mul_comm, mul_div_assoc, div_self (hM j), mul_one]
  rw [h1, h2]
  have h3 : ∀ i : Fin N,
      s.model.M i * v i
        * (1 / s.model.M i * (s.model.M i * v i)
          - s.dt2 / 4 * (s.model.J0 i / s.model.M i)
              * s.model.K_op (fun j => s.model.J0 j * v j) i
          - s.dt / (2 * s.model.M i) * s.model.Rsv_op v i)
      = s.model.M i * v i ^ 2
        - s.dt2 / 4
            * (s.model.J0 i * v i * s.model.K_op (fun j => s.model.J0 j * v j) i)
        - s.dt / 2 * (v i * s.model.Rsv_op v i) := by
    intro i
    field_simp [hM i]
    ring
  unfold dot
  calc 0.5 * ∑ i, s.model.M i * v i
        * (1 / s.model.M i * (s.model.M i * v i)
          - s.dt2 / 4 * (s.model.J0 i / s.model.M i)
              * s.model.K_op (fun j => s.model.J0 j * v j) i
          - s.dt / (2 * s.model.M i) * s.model.Rsv_op v i)
      = 0.5 * ∑ i, (s.model.M i * v i ^ 2
          - s.dt2 / 4
              * (s.model.J0 i * v i
                * s.model.K_op (fun j => s.model.J0 j * v j) i)
          - s.dt / 2 * (v i * s.model.Rsv_op v i)) := by
        rw [Finset.sum_congr rfl fun i _ => h3 i]
    _ = 0.5 * ((∑ i, s.model.M i * v i ^ 2)
          - s.dt2 / 4 * ∑ i, s.model.J0 i * v i
              * s.model.K_op (fun j => s.model.J0 j * v j) i
          - s.dt / 2 * ∑ i, v i * s.model.Rsv_op v i) := by
        rw [Finset.sum_sub_distrib, Finset.sum_sub_distrib,
          Finset.mul_sum, Finset.mul_sum]
    _ = 0.5 * (∑ i, s.model.M i * v i ^ 2)
          - s.dt2 / 8 * ∑ i, s.model.J0 i * v i
              * s.model.K_op (fun j => s.model.J0 j * v j) i
          - s.dt / 4 * ∑ i, v i * s.model.Rsv_op v i := by
        ring

/-- The implicit step equation hidden in `time_step`: if `qnext` is the
Sherman-Morrison solution for coupling vector `g`, dissipation `Rm` and
right-hand side `B(qnow) + C(qlast) - g*rn + Gu`, and `rnext` is the
auxiliary-variable update, then at every index the discrete
Newton-like balance
`M*(v1-v0)/dt + Rm*(v0+v1)/2 + J0*K(qnow) + Rsv(v0) + g*(rn+rnext)/2 = Gu`
holds, where `v0`, `v1` are the velocity quotients of the two half steps. -/
theorem step_equation (s : SAVSolver N Nu) (hsr : 0 < s.sr)
    (hJ0 : ∀ i, s.model.J0 i ≠ 0)
    (hRlin : ∀ (a b : ℝ) (u v : Vec N),
      s.model.Rsv_op (fun i => a * u i + b * v i)
        = fun i => a * s.model.Rsv_op u i + b * s.model.Rsv_op v i)
    (g Rm qlast qnow : Vec N) (rn : ℝ) (Gu : Vec N)
    (hpos : ∀ i, 0 < 2 * s.model.M i + s.dt * Rm i)
    (qnext : Vec N) (rnext : ℝ)
    (hq : qnext = s.qnextSM (s.A0_inv Rm) g
      (fun k => s.B_op qnow k + s.C_op qlast g Rm k - g k * rn + Gu k))
    (hr : rnext = rn
      + dot g (fun k => (qnext k - qlast k) / (2 * s.model.J0 k)))
    (i : Fin N) :
    s.model.M i * ((qnext i - qnow i) / (s.dt * s.model.J0 i)
        - (qnow i - qlast i) / (s.dt * s.model.J0 i)) / s.dt
      + Rm i * ((qnow i - qlast i) / (s.dt * s.model.J0 i)
        + (qnext i - qnow i) / (s.dt * s.model.J0 i)) / 2
      + s.model.J0 i * s.model.K_op qnow i
      + s.model.Rsv_op
          (fun j => (qnow j - qlast j) / (s.dt * s.model.J0 j)) i
      + g i * (rn + rnext) / 2
    = Gu i := by
  have hdt := s.dt_pos hsr
  have hdt0 : s.dt ≠ 0 := ne_of_gt hdt
  have hJ0i := hJ0 i
  have hA : ∀ k, 0 < s.A0_inv Rm k := s.A0_inv_pos Rm hsr hpos
  have hsolve := s.qnextSM_solves (s.A0_inv Rm) g
    (fun k => s.B_op qnow k + s.C_op qlast g Rm k - g k * rn + Gu k) hA hJ0
  have hsi := congrFun hsolve i
  simp only [linSystemLHS] at hsi
  rw [← hq] at hsi
  -- rewrite the dot product of `g` with `qnext/J0` using the auxiliary
  -- variable update
  have hgx : dot g (fun k => qnext k / s.model.J0 k)
      = dot g (fun k => qlast k / s.model.J0 k) + 2 * (rnext - rn) := by
    have e1 : dot g (fun k => (qnext k - qlast k) / (2 * s.model.J0 k))
        = (dot g (fun k => qnext k / s.model.J0 k)
          - dot g (fun k => qlast k / s.model.J0 k)) / 2 := by
      simp only [dot]
      rw [← Finset.sum_sub_distrib, Finset.sum_div]
      exact Finset.sum_congr rfl fun k _ => by ring
    rw [hr, e1]
    ring
  rw [hgx] at hsi
  simp only [B_op, C_op] at hsi
  -- express `Rsv(qnow/J0)` via `Rsv(qlast/J0)` and the velocity quotient
  have hRa : s.model.Rsv_op (fun j => qnow j / s.model.J0 j) i
      = s.model.Rsv_op (fun j => qlast j / s.model.J0 j) i
        + s.dt * s.model.Rsv_op
            (fun j => (qnow j - qlast j) / (s.dt * s.model.J0 j)) i := by
    have h2 := hRlin 1 s.dt (fun j => qlast j / s.model.J0 j)
      (fun j => (qnow j - qlast j) / (s.dt * s.model.J0 j))
    simp only [one_mul] at h2
    have hfun : (fun j => qnow j / s.model.J0 j)
        = fun j => qlast j / s.model.J0 j
          + s.dt * ((qnow j - qlast j) / (s.dt * s.model.J0 j)) := by
      funext j
      by_cases hj : s.model.J0 j = 0
      · simp [hj]
      · field_simp
        ring
    rw [hfun, h2]
  rw [hRa] at hsi
  have h1A : 1 / s.A0_inv Rm i
      = (2 * s.model.M i + s.dt * Rm i) / (2 * s.dt2 * 1) := by
    unfold A0_inv
    rw [one_div_div]
  rw [h1A] at hsi
  have hdt2e : s.dt2 = s.dt ^ 2 := rfl
  rw [hdt2e] at hsi
  -- solve the implicit relation for `Gu i` and substitute
  have hGui : Gu i
      = (2 * s.model.M i + s.dt * Rm i) / (2 * s.dt ^ 2 * 1)
          * (qnext i / s.model.J0 i)
        + 0.25 * g i
            * (dot g (fun k => qlast k / s.model.J0 k) + 2 * (rnext - rn))
        - (2 * s.model.M i / (s.dt ^ 2 * s.model.J0 i) * qnow i
          - s.model.J0 i * s.model.K_op qnow i
          - (s.model.Rsv_op (fun j => qlast j / s.model.J0 j) i
              + s.dt * s.model.Rsv_op
                  (fun j => (qnow j - qlast j) / (s.dt * s.model.J0 j)) i)
              / s.dt)
        - (-(1 *
            ((s.model.M i / s.dt ^ 2 - Rm i / (2 * s.dt)) * qlast i
                / s.model.J0 i
              - 0.25 * g i * dot g (fun j => qlast j / s.model.J0 j)
              - s.model.Rsv_op (fun j => qlast j / s.model.J0 j) i / s.dt)))
        + g i * rn := by
    linear_combination -hsi
  rw [hGui]
  field_simp
  ring

/-- `P_diss` evaluated at momenta of the form `M * v0`, `M * v1`. -/
theorem P_diss_eval (s : SAVSolver N Nu) (hM : ∀ i, s.model.M i ≠ 0)
    (hRlin : ∀ (a b : ℝ) (u v : Vec N),
      s.model.Rsv_op (fun i => a * u i + b * v i)
        = fun i => a * s.model.Rsv_op u i + b * s.model.Rsv_op v i)
    (hRsym : ∀ u v : Vec N,
      dot u (s.model.Rsv_op v) = dot v (s.model.Rsv_op u))
    (v0 v1 Rm : Vec N) :
    s.P_diss (fun i => s.model.M i * v0 i) (fun i => s.model.M i * v1 i) Rm
      = (∑ i, Rm i * ((v0 i + v1 i) / 2) ^ 2)
        + (dot v0 (s.model.Rsv_op v0) / 4 + dot v1 (s.model.Rsv_op v0) / 2
          + dot v1 (s.model.Rsv_op v1) / 4) := by
  have hmu : (fun j =>
      (s.model.M j * v0 j + s.model.M j * v1 j) / (2 * s.model.M j))
      = fun j => (v0 j + v1 j) / 2 := by
    funext j
    field_simp [hM j]
    ring
  have hb := dot_bilin s.model.Rsv_op hRlin hRsym
    (fun j => (v0 j + v1 j) / 2) v0 v1 (1/2) (1/2)
    (by
      funext j
      show (v0 j + v1 j) / 2 = 1 / 2 * v0 j + 1 / 2 * v1 j
      ring)
  simp only [P_diss]
  rw [hmu]
  simp only [dot]
  simp only [dot] at hb
  calc ∑ i, (v0 i + v1 i) / 2
        * (Rm i * ((s.model.M i * v0 i + s.model.M i * v1 i)
            / (2 * s.model.M i))
          + s.model.Rsv_op (fun j => (v0 j + v1 j) / 2) i)
      = ∑ i, (Rm i * ((v0 i + v1 i) / 2) ^ 2
          + (v0 i + v1 i) / 2
            * s.model.Rsv_op (fun j => (v0 j + v1 j) / 2) i) := by
        refine Finset.sum_congr rfl fun i _ => ?_
        field_simp [hM i]
        ring
    _ = (∑ i, Rm i * ((v0 i + v1 i) / 2) ^ 2)
        + ∑ i, (v0 i + v1 i) / 2
            * s.model.Rsv_op (fun j => (v0 j + v1 j) / 2) i :=
        Finset.sum_add_distrib
    _ = (∑ i, Rm i * ((v0 i + v1 i) / 2) ^ 2)
        + ((∑ i, v0 i * s.model.Rsv_op v0 i) / 4
          + (∑ i, v1 i * s.model.Rsv_op v0 i) / 2
          + (∑ i, v1 i * s.model.Rsv_op v1 i) / 4) := by
        rw [hb]
        ring

/-- The one-step discrete power balance in velocity coordinates: if the
pointwise step equation and the auxiliary-variable update relation hold,
then the pseudo-energy variation plus the dissipated power equals the
external input power `mutv . Gu`. -/
theorem balance_abstract (s : SAVSolver N Nu)
    (hM : ∀ i, s.model.M i ≠ 0)
    (hKlin : ∀ (a b : ℝ) (u v : Vec N),
      s.model.K_op (fun i => a * u i + b * v i)
        = fun i => a * s.model.K_op u i + b * s.model.K_op v i)
    (hKsym : ∀ u v : Vec N, dot u (s.model.K_op v) = dot v (s.model.K_op u))
    (hRlin : ∀ (a b : ℝ) (u v : Vec N),
      s.model.Rsv_op (fun i => a * u i + b * v i)
        = fun i => a * s.model.Rsv_op u i + b * s.model.Rsv_op v i)
    (hRsym : ∀ u v : Vec N,
      dot u (s.model.Rsv_op v) = dot v (s.model.Rsv_op u))
    (hdt0 : s.dt ≠ 0)
    (v0 v1 qnow Rm g Gu : Vec N) (rn rnext : ℝ)
    (hstep : ∀ i, s.model.M i * (v1 i - v0 i) / s.dt
        + Rm i * (v0 i + v1 i) / 2
        + s.model.J0 i * s.model.K_op qnow i
        + s.model.Rsv_op v0 i
        + g i * (rn + rnext) / 2 = Gu i)
    (hrr : dot g (fun i => (v0 i + v1 i) / 2) = (rnext - rn) / s.dt) :
    s.P_stored
        (s.E_tilde (fun i => qnow i - s.dt / 2 * (s.model.J0 i * v0 i))
          (fun i => s.model.M i * v0 i) rn)
        (s.E_tilde (fun i => qnow i + s.dt / 2 * (s.model.J0 i * v1 i))
          (fun i => s.model.M i * v1 i) rnext)
      + s.P_diss (fun i => s.model.M i * v0 i)
          (fun i => s.model.M i * v1 i) Rm
      = dot (fun i => (v0 i + v1 i) / 2) Gu := by
  have hdt2e : s.dt2 = s.dt ^ 2 := rfl
  have hq0 := dot_bilin s.model.K_op hKlin hKsym
    (fun i => qnow i - s.dt / 2 * (s.model.J0 i * v0 i)) qnow
    (fun i => s.model.J0 i * v0 i) 1 (-(s.dt / 2))
    (by
      funext i
      show qnow i - s.dt / 2 * (s.model.J0 i * v0 i)
        = 1 * qnow i + -(s.dt / 2) * (s.model.J0 i * v0 i)
      ring)
  have hq1 := dot_bilin s.model.K_op hKlin hKsym
    (fun i => qnow i + s.dt / 2 * (s.model.J0 i * v1 i)) qnow
    (fun i => s.model.J0 i * v1 i) 1 (s.dt / 2)
    (by
      funext i
      show qnow i + s.dt / 2 * (s.model.J0 i * v1 i)
        = 1 * qnow i + s.dt / 2 * (s.model.J0 i * v1 i)
      ring)
  have hpd := s.P_diss_eval hM hRlin hRsym v0 v1 Rm
  have hGsum : dot (fun i => (v0 i + v1 i) / 2) Gu
      = ((∑ i, s.model.M i * v1 i ^ 2) - ∑ i, s.model.M i * v0 i ^ 2)
          / (2 * s.dt)
        + (∑ i, Rm i * ((v0 i + v1 i) / 2) ^ 2)
        + (dot (fun i => s.model.J0 i * v0 i) (s.model.K_op qnow)
            + dot (fun i => s.model.J0 i * v1 i) (s.model.K_op qnow)) / 2
        + (dot v0 (s.model.Rsv_op v0) + dot v1 (s.model.Rsv_op v0)) / 2
        + (rn + rnext) / 2 * dot g (fun i => (v0 i + v1 i) / 2) := by
    simp only [dot]
    calc ∑ i, (v0 i + v1 i) / 2 * Gu i
        = ∑ i, (v0 i + v1 i) / 2
            * (s.model.M i * (v1 i - v0 i) / s.dt
              + Rm i * (v0 i + v1 i) / 2
              + s.model.J0 i * s.model.K_op qnow i
              + s.model.Rsv_op v0 i
              + g i * (rn + rnext) / 2) :=
          Finset.sum_congr rfl fun i _ => by rw [← hstep i]
      _ = ∑ i, ((s.model.M i * v1 i ^ 2 - s.model.M i * v0 i ^ 2)
              / (2 * s.dt)
            + Rm i * ((v0 i + v1 i) / 2) ^ 2
            + (s.model.J0 i * v0 i * s.model.K_op qnow i
                + s.model.J0 i * v1 i * s.model.K_op qnow i) / 2
            + (v0 i * s.model.Rsv_op v0 i
                + v1 i * s.model.Rsv_op v0 i) / 2
            + (rn + rnext) / 2 * (g i * ((v0 i + v1 i) / 2))) :=
          Finset.sum_congr rfl fun i _ => by ring
      _ = ((∑ i, s.model.M i * v1 i ^ 2) - ∑ i, s.model.M i * v0 i ^ 2)
              / (2 * s.dt)
            + (∑ i, Rm i * ((v0 i + v1 i) / 2) ^ 2)
            + ((∑ i, s.model.J0 i * v0 i * s.model.K_op qnow i)
                + ∑ i, s.model.J0 i * v1 i * s.model.K_op qnow i) / 2
            + ((∑ i, v0 i * s.model.Rsv_op v0 i)
                + ∑ i, v1 i * s.model.Rsv_op v0 i) / 2
            + (rn + rnext) / 2 * ∑ i, g i * ((v0 i + v1 i) / 2) := by
          rw [Finset.sum_add_distrib, Finset.sum_add_distrib,
            Finset.sum_add_distrib, Finset.sum_add_distrib,
            ← Finset.sum_div, ← Finset.sum_div, ← Finset.sum_div,
            Finset.sum_sub_distrib, Finset.sum_add_distrib,
            Finset.sum_add_distrib, ← Finset.mul_sum]
  simp only [P_stored, E_tilde, Ep_lin, Ep_nl_sav]
  rw [s.Ek_tilde_eval hM v0, s.Ek_tilde_eval hM v1, hq0, hq1, hpd, hGsum,
    hrr, hdt2e]
  field_simp
  ring

/-- One call of `time_step` satisfies the discrete power balance: the
variation of the pseudo-energy (built from the midpoint coordinates and
momenta before and after the step) plus the dissipated power equals the
power injected through the input ports, `mutv . (Gn @ unow)`.  The cached
`A0invn` must be the preconditioner of the `Rmidn` actually used, which
`integrate` guarantees for both values of `ConstantRmid`. -/
theorem balance_step (s : SAVSolver N Nu) (hsr : 0 < s.sr)
    (hM : ∀ i, s.model.M i ≠ 0) (hJ0 : ∀ i, s.model.J0 i ≠ 0)
    (hKlin : ∀ (a b : ℝ) (u v : Vec N),
      s.model.K_op (fun i => a * u i + b * v i)
        = fun i => a * s.model.K_op u i + b * s.model.K_op v i)
    (hKsym : ∀ u v : Vec N, dot u (s.model.K_op v) = dot v (s.model.K_op u))
    (hRlin : ∀ (a b : ℝ) (u v : Vec N),
      s.model.Rsv_op (fun i => a * u i + b * v i)
        = fun i => a * s.model.Rsv_op u i + b * s.model.Rsv_op v i)
    (hRsym : ∀ u v : Vec N,
      dot u (s.model.Rsv_op v) = dot v (s.model.Rsv_op u))
    (Rmidc A0invc qlast qnow : Vec N) (rn : ℝ) (unow : Vec Nu) (b : Bool)
    (out : StepResult N Nu)
    (hout : out = s.time_step Rmidc A0invc qlast qnow rn unow b)
    (hA : out.A0invn = s.A0_inv out.Rmidn)
    (hpos : ∀ i, 0 < 2 * s.model.M i + s.dt * out.Rmidn i) :
    s.P_stored
        (s.E_tilde (fun i => (qlast i + qnow i) / 2)
          (fun i => (qnow i - qlast i) * s.M_J0dt i) rn)
        (s.E_tilde (fun i => (qnow i + out.qnext i) / 2)
          (fun i => (out.qnext i - qnow i) * s.M_J0dt i) out.rnext)
      + s.P_diss (fun i => (qnow i - qlast i) * s.M_J0dt i)
          (fun i => (out.qnext i - qnow i) * s.M_J0dt i) out.Rmidn
      = dot (fun i => ((qnow i - qlast i) * s.M_J0dt i
            + (out.qnext i - qnow i) * s.M_J0dt i) / (2 * s.model.M i))
          (fun i => ∑ j, out.Gn i j * unow j) := by
  have hdt0 : s.dt ≠ 0 := ne_of_gt (s.dt_pos hsr)
  have hqnext := s.time_step_qnext Rmidc A0invc qlast qnow rn unow b
  have hRHS := s.time_step_RHSn Rmidc A0invc qlast qnow rn unow b
  have hrnext := s.time_step_rnext Rmidc A0invc qlast qnow rn unow b
  rw [← hout] at hqnext hRHS hrnext
  have hq : out.qnext = s.qnextSM (s.A0_inv out.Rmidn) out.gn
      (fun k => s.B_op qnow k + s.C_op qlast out.gn out.Rmidn k
        - out.gn k * rn + ∑ j, out.Gn k j * unow j) := by
    rw [hqnext, hA, hRHS]
  have hstepx := fun i => s.step_equation hsr hJ0 hRlin out.gn out.Rmidn
    qlast qnow rn (fun k => ∑ j, out.Gn k j * unow j) hpos out.qnext
    out.rnext hq hrnext i
  have hgdot : dot out.gn
      (fun i => ((qnow i - qlast i) / (s.dt * s.model.J0 i)
        + (out.qnext i - qnow i) / (s.dt * s.model.J0 i)) / 2)
      = (out.rnext - rn) / s.dt := by
    have e : (fun i => ((qnow i - qlast i) / (s.dt * s.model.J0 i)
        + (out.qnext i - qnow i) / (s.dt * s.model.J0 i)) / 2)
        = fun i => (out.qnext i - qlast i) / (2 * s.model.J0 i) / s.dt := by
      funext i
      ring
    rw [e]
    have e2 : dot out.gn
        (fun i => (out.qnext i - qlast i) / (2 * s.model.J0 i) / s.dt)
        = dot out.gn
            (fun i => (out.qnext i - qlast i) / (2 * s.model.J0 i)) / s.dt
        := by
      simp only [dot]
      rw [Finset.sum_div]
      exact Finset.sum_congr rfl fun i _ => by ring
    rw [e2, hrnext]
    ring
  have e_qmid0 : (fun i => (qlast i + qnow i) / 2)
      = fun i => qnow i - s.dt / 2
          * (s.model.J0 i * ((qnow i - qlast i) / (s.dt * s.model.J0 i)))
      := by
    funext i
    field_simp [hdt0, hJ0 i]
    ring
  have e_qmid1 : (fun i => (qnow i + out.qnext i) / 2)
      = fun i => qnow i + s.dt / 2
          * (s.model.J0 i
            * ((out.qnext i - qnow i) / (s.dt * s.model.J0 i))) := by
    funext i
    field_simp [hdt0, hJ0 i]
    ring
  have e_p0 : (fun i => (qnow i - qlast i) * s.M_J0dt i)
      = fun i => s.model.M i * ((qnow i - qlast i) / (s.dt * s.model.J0 i))
      := by
    funext i
    simp only [M_J0dt]
    ring
  have e_p1 : (fun i => (out.qnext i - qnow i) * s.M_J0dt i)
      = fun i => s.model.M i
          * ((out.qnext i - qnow i) / (s.dt * s.model.J0 i)) := by
    funext i
    simp only [M_J0dt]
    ring
  have e_mu : (fun i => ((qnow i - qlast i) * s.M_J0dt i
        + (out.qnext i - qnow i) * s.M_J0dt i) / (2 * s.model.M i))
      = fun i => ((qnow i - qlast i) / (s.dt * s.model.J0 i)
          + (out.qnext i - qnow i) / (s.dt * s.model.J0 i)) / 2 := by
    funext i
    simp only [M_J0dt]
    field_simp [hdt0, hJ0 i, hM i]
    ring
  rw [e_qmid0, e_qmid1, e_p0, e_p1, e_mu]
  exact s.balance_abstract hM hKlin hKsym hRlin hRsym hdt0
    (fun i => (qnow i - qlast i) / (s.dt * s.model.J0 i))
    (fun i => (out.qnext i - qnow i) / (s.dt * s.model.J0 i))
    qnow out.Rmidn out.gn (fun k => ∑ j, out.Gn k j * unow j) rn out.rnext
    hstepx hgdot

/-- With `ConstantRmid = true` the caches `Rmidn` / `A0_inv_n` keep the
values computed from `q0` at initialization, at every step of the run. -/
theorem states_cache_true (s : SAVSolver N Nu) (q0 u0 : Vec N)
    (u_func : ℝ → Vec Nu) (n : ℕ) :
    (s.states q0 u0 u_func true n).Rmidn = s.model.Rmid q0
      ∧ (s.states q0 u0 u_func true n).A0invn
        = s.A0_inv (s.model.Rmid q0) := by
  induction n with
  | zero => exact ⟨rfl, rfl⟩
  | succ n ih => exact ⟨ih.1, ih.2⟩

/-- After any step of a run, the cached preconditioner is consistent with
the cached dissipation vector, for either value of `ConstantRmid`. -/
theorem states_cache_consistent (s : SAVSolver N Nu) (q0 u0 : Vec N)
    (u_func : ℝ → Vec Nu) (b : Bool) (n : ℕ) :
    (s.states q0 u0 u_func b (n+1)).A0invn
      = s.A0_inv (s.states q0 u0 u_func b (n+1)).Rmidn := by
  cases b with
  | false => rfl
  | true =>
    rw [(s.states_cache_true q0 u0 u_func (n+1)).1,
      (s.states_cache_true q0 u0 u_func (n+1)).2]

/-- If the model's dissipation vector keeps `2*M + dt*Rmid` positive at
every state, so does the cached dissipation vector of every step. -/
theorem states_Rmidn_pos (s : SAVSolver N Nu)
    (hpos : ∀ q k, 0 < 2 * s.model.M k + s.dt * s.model.Rmid q k)
    (q0 u0 : Vec N) (u_func : ℝ → Vec Nu) (b : Bool) (n : ℕ) :
    ∀ k, 0 < 2 * s.model.M k
      + s.dt * (s.states q0 u0 u_func b (n+1)).Rmidn k := by
  cases b with
  | false => exact hpos (s.states q0 u0 u_func false n).qnow
  | true =>
    rw [(s.states_cache_true q0 u0 u_func (n+1)).1]
    exact hpos q0

/-- C1 (amended to models with a single input port, `Nu = 1`, which is what
every model in this repository provides): for every Model satisfying the
contract (positive diagonal mass, nonvanishing `J0`, linear symmetric
`K_op` and `Rsv_op`, dissipation keeping `2*M + dt*Rmid` positive), every
drift gain `lambda0 >= 0`, every sample rate (hence every step size
`dt = 1/sr`), and every step `i >= 1` of an integration run, the discrete
power balance `P_tot` — `P_stored(E^{i-1}, E^i) + P_diss(p^{i-1}, p^i,
Rmid) + P_ext(p^{i-1}, p^i, G, u)` computed from consecutive
pseudo-energies and momenta of the trajectory produced by `time_step`,
with the `Rmid`, `G`, `u` used in that step — is exactly zero in exact
real arithmetic. -/
theorem C1_power_balance {N : ℕ} (s : SAVSolver N 1) (hsr : 0 < s.sr)
    (hlam : 0 ≤ s.lambda0)
    (hM : ∀ k, 0 < s.model.M k) (hJ0 : ∀ k, s.model.J0 k ≠ 0)
    (hKlin : ∀ (a b : ℝ) (u v : Vec N),
      s.model.K_op (fun k => a * u k + b * v k)
        = fun k => a * s.model.K_op u k + b * s.model.K_op v k)
    (hKsym : ∀ u v : Vec N, dot u (s.model.K_op v) = dot v (s.model.K_op u))
    (hRlin : ∀ (a b : ℝ) (u v : Vec N),
      s.model.Rsv_op (fun k => a * u k + b * v k)
        = fun k => a * s.model.Rsv_op u k + b * s.model.Rsv_op v k)
    (hRsym : ∀ u v : Vec N,
      dot u (s.model.Rsv_op v) = dot v (s.model.Rsv_op u))
    (hpos : ∀ q k, 0 < 2 * s.model.M k + s.dt * s.model.Rmid q k)
    (q0 u0 : Vec N) (u_func : ℝ → Vec 1) (ConstantRmid : Bool)
    (i : ℕ) (hi : 1 ≤ i) (j : Fin 1) :
    s.P_tot (s.traj_E q0 u0 u_func ConstantRmid (i - 1))
      (s.traj_E q0 u0 u_func ConstantRmid i)
      (s.traj_p q0 u0 u_func ConstantRmid (i - 1))
      (s.traj_p q0 u0 u_func ConstantRmid i)
      (s.states q0 u0 u_func ConstantRmid i).Rmidn
      (s.states q0 u0 u_func ConstantRmid i).Gn
      (u_func ((((i - 1 : ℕ) : ℝ) + 0.5) * s.dt)) j = 0 := by
  obtain ⟨n, rfl⟩ : ∃ n, i = n + 1 :=
    ⟨i - 1, (Nat.succ_pred_eq_of_pos hi).symm⟩
  simp only [Nat.add_sub_cancel]
  have hM' : ∀ k, s.model.M k ≠ 0 := fun k => ne_of_gt (hM k)
  set st := s.states q0 u0 u_func ConstantRmid n with hst
  set u1 := u_func ((n + 0.5) * s.dt) with hu1
  set out := s.time_step st.Rmidn st.A0invn st.qlast st.qnow st.rnow u1
    ConstantRmid with hout
  have h1 : (s.states q0 u0 u_func ConstantRmid (n+1)).qlast = st.qnow := rfl
  have h2 : (s.states q0 u0 u_func ConstantRmid (n+1)).qnow = out.qnext :=
    rfl
  have h3 : (s.states q0 u0 u_func ConstantRmid (n+1)).rnow = out.rnext :=
    rfl
  have h4 : (s.states q0 u0 u_func ConstantRmid (n+1)).Rmidn = out.Rmidn :=
    rfl
  have h5 : (s.states q0 u0 u_func ConstantRmid (n+1)).Gn = out.Gn := rfl
  have hA : out.A0invn = s.A0_inv out.Rmidn :=
    s.states_cache_consistent q0 u0 u_func ConstantRmid n
  have hposn : ∀ k, 0 < 2 * s.model.M k + s.dt * out.Rmidn k :=
    s.states_Rmidn_pos hpos q0 u0 u_func ConstantRmid n
  have hbal := s.balance_step hsr hM' hJ0 hKlin hKsym hRlin hRsym st.Rmidn
    st.A0invn st.qlast st.qnow st.rnow u1 ConstantRmid out hout hA hposn
  have hj : j = 0 := Fin.eq_zero j
  subst hj
  simp only [P_tot, traj_E]
  have e1 : s.traj_qmid q0 u0 u_func ConstantRmid n
      = fun k => (st.qlast k + st.qnow k) / 2 := rfl
  have e2 : s.traj_p q0 u0 u_func ConstantRmid n
      = fun k => (st.qnow k - st.qlast k) * s.M_J0dt k := rfl
  have e3 : s.traj_qmid q0 u0 u_func ConstantRmid (n+1)
      = fun k => (st.qnow k + out.qnext k) / 2 := rfl
  have e4 : s.traj_p q0 u0 u_func ConstantRmid (n+1)
      = fun k => (out.qnext k - st.qnow k) * s.M_J0dt k := rfl
  have e5 : (s.states q0 u0 u_func ConstantRmid n).rnow = st.rnow := rfl
  rw [e1, e2, e3, e4, e5, h3, h4, h5]
  have hPe : s.P_ext (fun k => (st.qnow k - st.qlast k) * s.M_J0dt k)
      (fun k => (out.qnext k - st.qnow k) * s.M_J0dt k) out.Gn u1 0
      = -dot (fun k => ((st.qnow k - st.qlast k) * s.M_J0dt k
          + (out.qnext k - st.qnow k) * s.M_J0dt k) / (2 * s.model.M k))
          (fun k => ∑ j, out.Gn k j * u1 j) := by
    simp only [P_ext, dot]
    congr 1
    refine Finset.sum_congr rfl fun k _ => ?_
    rw [Fin.sum_univ_one]
  rw [hPe]
  linear_combination hbal

/-- C2: the closed-form update of `time_step` (lines 371-376) solves the
structured implicit system exactly: for every coupling vector `g`, every
right-hand side `RHS`, and every `Rmid` with all entries of `2*M + dt*Rmid`
positive, `(diag(1/A0_inv) + 0.25*outer(g,g))` applied to `qnext/J0`
equals `RHS` — the Sherman-Morrison shortcut is equivalent to solving the
diagonal-plus-rank-1 system, without forming any N-by-N matrix. -/
theorem C2_sherman_morrison (s : SAVSolver N Nu) (hsr : 0 < s.sr)
    (hJ0 : ∀ i, s.model.J0 i ≠ 0) (gn RHS Rmid : Vec N)
    (hpos : ∀ i, 0 < 2 * s.model.M i + s.dt * Rmid i) :
    linSystemLHS (s.A0_inv Rmid) gn
      (fun k => s.qnextSM (s.A0_inv Rmid) gn RHS k / s.model.J0 k) = RHS :=
  s.qnextSM_solves (s.A0_inv Rmid) gn RHS (s.A0_inv_pos Rmid hsr hpos) hJ0

/-- C4: `time_step` returns the drift diagnostic
`epsilon = r - sqrt(2*Enl(q_mid) + C0)` evaluated at the midpoint
coordinate `q_mid = (q_prev + q_curr)/2` (not at `q_curr`), and the
coupling vector used in the solve is `g(q_curr)` plus the drift correction
`-lambda0 * epsilon * M * sign(p) / (|p| + Num_eps)` with
`p = (q_curr - q_prev) * M / (dt * J0)`. -/
theorem C4_drift_from_midpoint (s : SAVSolver N Nu)
    (Rmidc A0invc qlast qnow : Vec N) (rn : ℝ) (unow : Vec Nu) (b : Bool) :
    (s.time_step Rmidc A0invc qlast qnow rn unow b).epsilon
      = rn - Real.sqrt
          (2 * s.model.Enl (fun i => (qlast i + qnow i) / 2) + s.C0)
    ∧ (s.time_step Rmidc A0invc qlast qnow rn unow b).gn
      = fun i => s.g qnow i
          + -s.lambda0
              * (rn - Real.sqrt
                  (2 * s.model.Enl (fun k => (qlast k + qnow k) / 2) + s.C0))
              * s.model.M i
              * Real.sign ((qnow i - qlast i)
                  * (s.model.M i / (s.dt * s.model.J0 i)))
              / (|(qnow i - qlast i)
                  * (s.model.M i / (s.dt * s.model.J0 i))| + s.Num_eps) :=
  ⟨rfl, rfl⟩

/-- C5: with `ConstantRmid = true`, the caches `Rmidn` and `A0_inv_n` are
computed once at initialization from `q0` and are unchanged by every
subsequent `time_step` call of the run; with `ConstantRmid = false` every
`time_step` call recomputes both from the current coordinate `qnow`; and
the other cached quantities written by `time_step` (`gn`, `Gn`, and the
drift diagnostic) do not depend on the flag or on the caches at all. -/
theorem C5_ConstantRmid_frame (s : SAVSolver N Nu) :
    (∀ (q0 u0 : Vec N) (u_func : ℝ → Vec Nu) (n : ℕ),
      (s.states q0 u0 u_func true 0).Rmidn = s.model.Rmid q0
      ∧ (s.states q0 u0 u_func true 0).A0invn = s.A0_inv (s.model.Rmid q0)
      ∧ (s.states q0 u0 u_func true (n+1)).Rmidn
          = (s.states q0 u0 u_func true n).Rmidn
      ∧ (s.states q0 u0 u_func true (n+1)).A0invn
          = (s.states q0 u0 u_func true n).A0invn)
    ∧ (∀ (Rmidc A0invc qlast qnow : Vec N) (rn : ℝ) (unow : Vec Nu),
      (s.time_step Rmidc A0invc qlast qnow rn unow false).Rmidn
          = s.model.Rmid qnow
      ∧ (s.time_step Rmidc A0invc qlast qnow rn unow false).A0invn
          = s.A0_inv (s.model.Rmid qnow))
    ∧ (∀ (Rmidc A0invc Rmidc' A0invc' qlast qnow : Vec N) (rn : ℝ)
        (unow unow' : Vec Nu) (b b' : Bool),
      (s.time_step Rmidc A0invc qlast qnow rn unow b).gn
          = (s.time_step Rmidc' A0invc' qlast qnow rn unow' b').gn
      ∧ (s.time_step Rmidc A0invc qlast qnow rn unow b).Gn
          = (s.time_step Rmidc' A0invc' qlast qnow rn unow' b').Gn
      ∧ (s.time_step Rmidc A0invc qlast qnow rn unow b).epsilon
          = (s.time_step Rmidc' A0invc' qlast qnow rn unow' b').epsilon) :=
  ⟨fun _ _ _ _ => ⟨rfl, rfl, rfl, rfl⟩,
   fun _ _ _ _ _ _ => ⟨rfl, rfl⟩,
   fun _ _ _ _ _ _ _ _ _ _ _ => ⟨rfl, rfl, rfl⟩⟩

/-- Modelled from the spec: the undriven SAV step — the same update as
`time_step` but with the drift-control correction term omitted, so the
coupling vector is the plain `g(q_curr)`.  (The drift diagnostic is still
reported; it does not enter the update.) -/
noncomputable def time_step_undriven (s : SAVSolver N Nu)
    (Rmidc A0invc : Vec N) (qlast qnow : Vec N) (rn : ℝ) (unow : Vec Nu)
    (ConstantRmid : Bool) : StepResult N Nu :=
  let pn : Vec N := fun i => (qnow i - qlast i) * s.M_J0dt i
  let qn : Vec N := fun i => (qlast i + qnow i) / 2
  let gn : Vec N := fun i => s.g qnow i
  let Gn := s.model.G qnow
  let Rmidn := if ConstantRmid then Rmidc else s.model.Rmid qnow
  let A0invn := if ConstantRmid then A0invc else s.A0_inv (s.model.Rmid qnow)
  let RHSn : Vec N := fun i =>
    s.B_op qnow i + s.C_op qlast gn Rmidn i - gn i * rn + ∑ j, Gn i j * unow j
  let qnext := s.qnextSM A0invn gn RHSn
  let rnext := rn + dot gn (fun i => (qnext i - qlast i) / (2 * s.model.J0 i))
  ⟨qnext, rnext, qn, pn, s.epsilonDrift qn rn, gn, Gn, Rmidn, A0invn, RHSn⟩

/-- C7: with `lambda0 = 0` the drift correction `g_mod` is the zero vector
for all arguments, so the coupling vector reduces to the undriven
`g(q_curr)` and every `time_step` coincides with the SAV step without
drift control. -/
theorem C7_lambda0_zero_undriven (s : SAVSolver N Nu)
    (hl : s.lambda0 = 0) :
    (∀ (q p : Vec N) (r : ℝ), s.g_mod q p r = fun _ => 0)
    ∧ ∀ (Rmidc A0invc qlast qnow : Vec N) (rn : ℝ) (unow : Vec Nu)
        (b : Bool),
      s.time_step Rmidc A0invc qlast qnow rn unow b
        = s.time_step_undriven Rmidc A0invc qlast qnow rn unow b := by
  have hgm : ∀ (q p : Vec N) (r : ℝ), s.g_mod q p r = fun _ => 0 := by
    intro q p r
    funext i
    simp [g_mod, hl]
  refine ⟨hgm, ?_⟩
  intro Rmidc A0invc qlast qnow rn unow b
  simp only [time_step, time_step_undriven, hgm, add_zero]

/-- C8: the additive-epsilon guards make the divisions in `g` and `g_mod`
total: whenever `Enl(q) >= 0` (and `C0 = 0 >= 0` as set by `__init__`),
the denominator `sqrt(2*Enl(q) + C0 + Num_eps)` used by `g` is strictly
positive, and `|p| + Num_eps` is strictly positive for every momentum
component, so the first `time_step` divides by nonzero quantities instead
of by zero. -/
theorem C8_epsilon_guards (s : SAVSolver N Nu) (q : Vec N)
    (hEnl : 0 ≤ (s.model.EandFnl q).1) :
    0 < s.gDen q ∧ ∀ p : ℝ, 0 < |p| + s.Num_eps := by
  have heps := s.Num_eps_pos
  constructor
  · unfold gDen
    apply Real.sqrt_pos.mpr
    have hC0 : s.C0 = 0 := rfl
    rw [hC0]
    linarith
  · intro p
    have := abs_nonneg p
    linarith

/-- C9: `integrate` starts the recursion from exactly
`q_prev = q0 - u0*dt/2`, `q_curr = q0 + u0*dt/2` and
`r = sqrt(2*Enl(q0) + C0)`, so the initial drift relative to `q0` is
exactly zero. -/
theorem C9_initial_state (s : SAVSolver N Nu) (q0 u0 : Vec N) (b : Bool) :
    (s.initState q0 u0 b).qlast = (fun i => q0 i - u0 i * s.dt / 2)
    ∧ (s.initState q0 u0 b).qnow = (fun i => q0 i + u0 i * s.dt / 2)
    ∧ (s.initState q0 u0 b).rnow = Real.sqrt (2 * s.model.Enl q0 + s.C0)
    ∧ s.epsilonDrift q0 (s.initState q0 u0 b).rnow = 0 :=
  ⟨rfl, rfl, rfl, sub_self _⟩

end SAVSolver

/-- A minimal conforming model: one degree of freedom, unit mass and
reference operator, zero stiffness, dissipation, input coupling and
nonlinearity. -/
def trivialModel : Model 1 1 where
  M := fun _ => 1
  J0 := fun _ => 1
  K_op := fun _ => fun _ => 0
  Rsv_op := fun _ => fun _ => 0
  Rmid := fun _ => fun _ => 0
  G := fun _ => fun _ _ => 0
  Enl := fun _ => 0
  Fnl := fun _ => fun _ => 0
  EandFnl := fun _ => (0, fun _ => 0)

/-- A solver over `trivialModel` with `sr = 1` and `lambda0 = 0`. -/
def trivialSolver : SAVSolver 1 1 where
  model := trivialModel
  sr := 1
  lambda0 := 0

theorem trivialSolver_sr_pos : (0:ℝ) < trivialSolver.sr := by
  norm_num [trivialSolver]

theorem trivialSolver_M_pos : ∀ k, (0:ℝ) < trivialSolver.model.M k := by
  intro k
  norm_num [trivialSolver, trivialModel]

theorem trivialSolver_J0_ne : ∀ k, trivialSolver.model.J0 k ≠ (0:ℝ) := by
  intro k
  norm_num [trivialSolver, trivialModel]

theorem trivialSolver_Klin : ∀ (a b : ℝ) (u v : Vec 1),
    trivialSolver.model.K_op (fun k => a * u k + b * v k)
      = fun k => a * trivialSolver.model.K_op u k
        + b * trivialSolver.model.K_op v k := by
  intro a b u v
  funext k
  simp [trivialSolver, trivialModel]

theorem trivialSolver_Ksym : ∀ u v : Vec 1,
    dot u (trivialSolver.model.K_op v)
      = dot v (trivialSolver.model.K_op u) := by
  intro u v
  simp [trivialSolver, trivialModel, dot]

theorem trivialSolver_Rlin : ∀ (a b : ℝ) (u v : Vec 1),
    trivialSolver.model.Rsv_op (fun k => a * u k + b * v k)
      = fun k => a * trivialSolver.model.Rsv_op u k
        + b * trivialSolver.model.Rsv_op v k := by
  intro a b u v
  funext k
  simp [trivialSolver, trivialModel]

theorem trivialSolver_Rsym : ∀ u v : Vec 1,
    dot u (trivialSolver.model.Rsv_op v)
      = dot v (trivialSolver.model.Rsv_op u) := by
  intro u v
  simp [trivialSolver, trivialModel, dot]

theorem trivialSolver_Rmid_pos : ∀ (q : Vec 1) (k : Fin 1),
    0 < 2 * trivialSolver.model.M k
      + trivialSolver.dt * trivialSolver.model.Rmid q k := by
  intro q k
  norm_num [trivialSolver, trivialModel, SAVSolver.dt]

/-- Witness for C1 at the trivial model, run with `ConstantRmid = false`,
zero initial conditions and zero input, at step `i = 1`. -/
theorem C1_power_balance_witness :
    (0:ℝ) < trivialSolver.sr
    ∧ 0 ≤ trivialSolver.lambda0
    ∧ (∀ k, (0:ℝ) < trivialSolver.model.M k)
    ∧ (∀ k, trivialSolver.model.J0 k ≠ (0:ℝ))
    ∧ (1:ℕ) ≤ 1
    ∧ trivialSolver.P_tot
        (trivialSolver.traj_E (fun _ => 0) (fun _ => 0)
          (fun _ => fun _ => 0) false (1 - 1))
        (trivialSolver.traj_E (fun _ => 0) (fun _ => 0)
          (fun _ => fun _ => 0) false 1)
        (trivialSolver.traj_p (fun _ => 0) (fun _ => 0)
          (fun _ => fun _ => 0) false (1 - 1))
        (trivialSolver.traj_p (fun _ => 0) (fun _ => 0)
          (fun _ => fun _ => 0) false 1)
        (trivialSolver.states (fun _ => 0) (fun _ => 0)
          (fun _ => fun _ => 0) false 1).Rmidn
        (trivialSolver.states (fun _ => 0) (fun _ => 0)
          (fun _ => fun _ => 0) false 1).Gn
        ((fun _ => fun _ => (0:ℝ))
          ((((1 - 1 : ℕ) : ℝ) + 0.5) * trivialSolver.dt)) 0 = 0 :=
  ⟨trivialSolver_sr_pos, le_refl 0, trivialSolver_M_pos, trivialSolver_J0_ne,
    le_refl 1,
    SAVSolver.C1_power_balance trivialSolver trivialSolver_sr_pos
      (le_refl 0) trivialSolver_M_pos trivialSolver_J0_ne trivialSolver_Klin
      trivialSolver_Ksym trivialSolver_Rlin trivialSolver_Rsym
      trivialSolver_Rmid_pos (fun _ => 0) (fun _ => 0) (fun _ => fun _ => 0)
      false 1 (le_refl 1) 0⟩

/-- Witness for C2 at the trivial model with `g = RHS = ones`,
`Rmid = 0`. -/
theorem C2_sherman_morrison_witness :
    (0:ℝ) < trivialSolver.sr
    ∧ (∀ k, trivialSolver.model.J0 k ≠ (0:ℝ))
    ∧ (∀ k, 0 < 2 * trivialSolver.model.M k
        + trivialSolver.dt * (fun _ => (0:ℝ)) k)
    ∧ linSystemLHS (trivialSolver.A0_inv (fun _ => 0)) (fun _ => 1)
        (fun k => trivialSolver.qnextSM (trivialSolver.A0_inv (fun _ => 0))
          (fun _ => 1) (fun _ => 1) k / trivialSolver.model.J0 k)
        = (fun _ => 1) :=
  ⟨trivialSolver_sr_pos, trivialSolver_J0_ne,
    fun k => by norm_num [trivialSolver, trivialModel, SAVSolver.dt],
    SAVSolver.C2_sherman_morrison trivialSolver trivialSolver_sr_pos
      trivialSolver_J0_ne (fun _ => 1) (fun _ => 1) (fun _ => 0)
      (fun k => by norm_num [trivialSolver, trivialModel, SAVSolver.dt])⟩

/-- Witness for C7 at the trivial solver, whose `lambda0` is `0`. -/
theorem C7_lambda0_zero_undriven_witness :
    trivialSolver.lambda0 = 0
    ∧ ((∀ (q p : Vec 1) (r : ℝ), trivialSolver.g_mod q p r = fun _ => 0)
      ∧ ∀ (Rmidc A0invc qlast qnow : Vec 1) (rn : ℝ) (unow : Vec 1)
          (b : Bool),
        trivialSolver.time_step Rmidc A0invc qlast qnow rn unow b
          = trivialSolver.time_step_undriven Rmidc A0invc qlast qnow rn unow
              b) :=
  ⟨rfl, SAVSolver.C7_lambda0_zero_undriven trivialSolver rfl⟩

/-- Witness for C8 at the trivial model, whose nonlinear energy is exactly
zero. -/
theorem C8_epsilon_guards_witness :
    0 ≤ (trivialSolver.model.EandFnl (fun _ => 0)).1
    ∧ (0 < trivialSolver.gDen (fun _ => 0)
      ∧ ∀ p : ℝ, 0 < |p| + trivialSolver.Num_eps) :=
  ⟨le_refl 0,
    SAVSolver.C8_epsilon_guards trivialSolver (fun _ => 0) (le_refl 0)⟩

/-- A conforming model with TWO input ports (`Nu = 2`): one degree of
freedom, unit mass and reference operator, zero stiffness, dissipation and
nonlinearity, and input coupling matrix with all entries `1`. -/
def cexModel2 : Model 1 2 where
  M := fun _ => 1
  J0 := fun _ => 1
  K_op := fun _ => fun _ => 0
  Rsv_op := fun _ => fun _ => 0
  Rmid := fun _ => fun _ => 0
  G := fun _ => fun _ _ => 1
  Enl := fun _ => 0
  Fnl := fun _ => fun _ => 0
  EandFnl := fun _ => (0, fun _ => 0)

/-- A solver over `cexModel2` with `sr = 1` and `lambda0 = 0`. -/
def cexSolver2 : SAVSolver 1 2 where
  model := cexModel2
  sr := 1
  lambda0 := 0

/-- Evaluation of `P_ext` at the failing input of claim C3 (`N = 1`,
`Nu = 2`, `M = [1]`, `pnow = pnext = [1]`, `G = [[1, 2]]`, `u = [1, 1]`):
the code's elementwise product `G * u` makes `P_ext` return the length-2
array `[-1, -2]`, whereas `-mean_p . (G @ u)` — the scalar the claim and
the docstring describe — is `-3`. -/
theorem C3_P_ext_elementwise_eval :
    cexSolver2.P_ext (fun _ => 1) (fun _ => 1) ![![1, 2]] ![1, 1] 0 = -1
    ∧ cexSolver2.P_ext (fun _ => 1) (fun _ => 1) ![![1, 2]] ![1, 1] 1 = -2
    ∧ -dot (fun i => ((1:ℝ) + 1) / (2 * cexSolver2.model.M i))
        (fun i => ∑ j, (![![(1:ℝ), 2]] : Fin 1 → Fin 2 → ℝ) i j
          * (![1, 1] : Vec 2) j) = -3 := by
  refine ⟨?_, ?_, ?_⟩ <;>
    norm_num [SAVSolver.P_ext, dot, cexSolver2, cexModel2,
      Fin.sum_univ_one, Fin.sum_univ_two]

/-- Counterexample to C1 as frozen: with the contract-conforming two-port
model `cexModel2` (`Nu = 2`), zero initial conditions and constant input
`u = (1, 1)`, the "power balance" `P_tot` computed by the code at step
`i = 1` is the value `1`, not `0`: because `P_ext` multiplies `G * u`
elementwise instead of forming `G @ u`, each entry of the length-2 array
`P_tot` only accounts for one input port. -/
theorem C1_counterexample :
    cexSolver2.P_tot
      (cexSolver2.traj_E (fun _ => 0) (fun _ => 0) (fun _ => fun _ => 1)
        false (1 - 1))
      (cexSolver2.traj_E (fun _ => 0) (fun _ => 0) (fun _ => fun _ => 1)
        false 1)
      (cexSolver2.traj_p (fun _ => 0) (fun _ => 0) (fun _ => fun _ => 1)
        false (1 - 1))
      (cexSolver2.traj_p (fun _ => 0) (fun _ => 0) (fun _ => fun _ => 1)
        false 1)
      (cexSolver2.states (fun _ => 0) (fun _ => 0) (fun _ => fun _ => 1)
        false 1).Rmidn
      (cexSolver2.states (fun _ => 0) (fun _ => 0) (fun _ => fun _ => 1)
        false 1).Gn
      ((fun _ => fun _ => (1:ℝ))
        ((((1 - 1 : ℕ) : ℝ) + 0.5) * cexSolver2.dt)) 0 ≠ 0 := by
  norm_num [SAVSolver.P_tot, SAVSolver.P_stored, SAVSolver.P_diss,
    SAVSolver.P_ext, SAVSolver.traj_E, SAVSolver.traj_p,
    SAVSolver.traj_qmid, SAVSolver.E_tilde, SAVSolver.Ek_tilde,
    SAVSolver.Ep_lin, SAVSolver.Ep_nl_sav, SAVSolver.states,
    SAVSolver.stepState, SAVSolver.initState, SAVSolver.time_step,
    SAVSolver.qnextSM, SAVSolver.den, SAVSolver.B_op, SAVSolver.C_op,
    SAVSolver.g, SAVSolver.g_mod, SAVSolver.gDen, SAVSolver.epsilonDrift,
    SAVSolver.A0_inv, SAVSolver.M_J0dt, SAVSolver.dt, SAVSolver.dt2,
    SAVSolver.C0, SAVSolver.Num_eps, dot, cexSolver2, cexModel2,
    Fin.sum_univ_one, Fin.sum_univ_two, Real.sqrt_zero]

/-! ### Shape checking (`SAVSolver.__init__` / `check_sizes`)

For claim C6 the shape behaviour matters, so the model is re-embedded with
untyped numpy-like vectors: 1-D arrays become `List ℝ`, matrices become
`List (List ℝ)`, and the numpy elementwise product with 1-D broadcasting
becomes `bmul` (defined iff the lengths agree or one of them is `1`). -/

/-- Numpy elementwise product of two 1-D arrays with broadcasting: defined
when the lengths agree or either operand has length one. -/
def bmul (a b : List ℝ) : Option (List ℝ) :=
  if a.length = b.length then some (List.zipWith (fun x y => x * y) a b)
  else if a.length = 1 then some (b.map (fun y => a.headD 0 * y))
  else if b.length = 1 then some (a.map (fun x => x * b.headD 0))
  else none

/-- The model as `check_sizes` sees it: operations return untyped arrays
whose lengths are not constrained by construction. -/
structure RawModel where
  N : ℕ
  Nu : ℕ
  J0 : List ℝ
  M : List ℝ
  Rmid : List ℝ → List ℝ
  K_op : List ℝ → List ℝ
  Rsv_op : List ℝ → List ℝ
  G : List (List ℝ) → List (List ℝ)
  Enl : List ℝ → ℝ
  Fnl : List ℝ → List ℝ
  EandFnl : List ℝ → ℝ × List ℝ

/-- `SAVSolver.check_sizes` (lines 48-113).  Each Python `try` block around
the `J0`, `M` and `Rmid` products catches its own shape-mismatch `raise`
as well, so any failure there yields the generic "cannot be applied"
message; the `K_op`/`Rsv_op`/`G`/`Fnl`/`EandFnl` shape checks sit outside
their `try` and report the expected and received shapes.  The `Enl` call
and `setting()` probe have no shape check and cannot fail here since the
embedded operations are total functions. -/
def RawModel.check_sizes (m : RawModel) : Except String Unit :=
  let x : List ℝ := List.replicate m.N 0
  let u : List (List ℝ) := List.replicate m.N (List.replicate m.Nu 0)
  match bmul m.J0 x with
  | none => Except.error ("J0 cannot be applied to a vector of length "
      ++ toString m.N)
  | some J0x =>
    if J0x.length ≠ m.N then
      Except.error ("J0 cannot be applied to a vector of length "
        ++ toString m.N)
    else
      match bmul m.M x with
      | none => Except.error ("M cannot be applied to a vector of length "
          ++ toString m.N)
      | some Mx =>
        if Mx.length ≠ J0x.length then
          Except.error ("M cannot be applied to a vector of length "
            ++ toString m.N)
        else
          match bmul (m.Rmid x) x with
          | none => Except.error
              ("Rmid(x) cannot be computed, or applied to a vector of length "
                ++ toString m.N)
          | some Rmidx =>
            if Rmidx.length ≠ J0x.length then
              Except.error
                ("Rmid(x) cannot be computed, or applied to a vector of length "
                  ++ toString m.N)
            else if (m.K_op x).length ≠ J0x.length then
              Except.error ("Kq must have " ++ toString m.N
                ++ " elements but has shape ("
                ++ toString (m.K_op x).length ++ ",)")
            else if (m.Rsv_op x).length ≠ J0x.length then
              Except.error ("Rsvq must have " ++ toString m.N
                ++ " elements but has shape ("
                ++ toString (m.Rsv_op x).length ++ ",)")
            else if ¬((m.G u).length = m.N
                ∧ ∀ row ∈ m.G u, row.length = m.Nu) then
              Except.error ("Gn must have shape (" ++ toString m.N ++ ", "
                ++ toString m.Nu ++ ") but has shape ("
                ++ toString (m.G u).length ++ ", "
                ++ toString ((m.G u).headD []).length ++ ")")
            else if (m.Fnl x).length ≠ J0x.length then
              Except.error ("Fnl(q) must have " ++ toString m.N
                ++ " elements but has shape ("
                ++ toString (m.Fnl x).length ++ ",)")
            else if (m.EandFnl x).2.length ≠ J0x.length then
              Except.error ("Fnl(q) evaluated using EandFnl(q) must have "
                ++ toString m.N ++ " elements but has shape ("
                ++ toString (m.EandFnl x).2.length ++ ",)")
            else Except.ok ()

/-- `SAVSolver.__init__` runs `check_sizes` as its last act, so the solver
object is only obtained when every shape check passed; otherwise the
exception propagates out of the constructor, before any `time_step`. -/
def RawModel.init_solver (m : RawModel) : Except String RawModel :=
  match m.check_sizes with
  | Except.ok _ => Except.ok m
  | Except.error e => Except.error e

/-- C6 (amended): construction validates the shapes of the directly
checked operations exactly — `check_sizes` succeeds only if `K_op`,
`Rsv_op`, `Fnl`, `EandFnl` return exactly `N` elements on the probe vector
and `G` returns an `N x Nu` matrix — and when e.g. `K_op` returns a wrong
shape (the earlier `J0`/`M`/`Rmid` probes being well-formed), construction
fails with the error naming the operation and the expected versus received
shape.  (The original claim fails for `Rmid`, whose output shape is only
probed through the broadcastable product `Rmid(x)*x`: see the
counterexample.) -/
theorem C6_shape_validation (m : RawModel) :
    (m.check_sizes = Except.ok () →
      (m.K_op (List.replicate m.N 0)).length = m.N
      ∧ (m.Rsv_op (List.replicate m.N 0)).length = m.N
      ∧ (m.Fnl (List.replicate m.N 0)).length = m.N
      ∧ (m.EandFnl (List.replicate m.N 0)).2.length = m.N
      ∧ (m.G (List.replicate m.N (List.replicate m.Nu 0))).length = m.N
      ∧ ∀ row ∈ m.G (List.replicate m.N (List.replicate m.Nu 0)),
          row.length = m.Nu)
    ∧ (∀ J0x Mx Rmidx : List ℝ,
      bmul m.J0 (List.replicate m.N 0) = some J0x → J0x.length = m.N →
      bmul m.M (List.replicate m.N 0) = some Mx → Mx.length = m.N →
      bmul (m.Rmid (List.replicate m.N 0)) (List.replicate m.N 0)
          = some Rmidx →
      Rmidx.length = m.N →
      (m.K_op (List.replicate m.N 0)).length ≠ m.N →
      m.init_solver = Except.error ("Kq must have " ++ toString m.N
        ++ " elements but has shape ("
        ++ toString (m.K_op (List.replicate m.N 0)).length ++ ",)")) := by
  constructor
  · intro h
    simp only [RawModel.check_sizes] at h
    split at h
    · exact Except.noConfusion h
    next J0x hJ0 =>
      split at h
      · exact Except.noConfusion h
      next hlJ =>
        split at h
        · exact Except.noConfusion h
        next Mx hMx =>
          split at h
          · exact Except.noConfusion h
          next hlM =>
            split at h
            · exact Except.noConfusion h
            next Rx hRx =>
              split at h
              · exact Except.noConfusion h
              next hlR =>
                split at h
                · exact Except.noConfusion h
                next hK =>
                  split at h
                  · exact Except.noConfusion h
                  next hRsv =>
                    split at h
                    · exact Except.noConfusion h
                    next hG =>
                      split at h
                      · exact Except.noConfusion h
                      next hF =>
                        split at h
                        · exact Except.noConfusion h
                        next hEF =>
                          rw [not_ne_iff] at hlJ hK hRsv hF hEF
                          rw [not_not] at hG
                          exact ⟨hlJ ▸ hK, hlJ ▸ hRsv, hlJ ▸ hF,
                            hlJ ▸ hEF, hG.1, hG.2⟩
  · intro J0x Mx Rmidx hJ0 hlJ hMx hlM hRx hlR hK
    have hlJ' : ¬(J0x.length ≠ m.N) := not_ne_iff.mpr hlJ
    have hlM' : ¬(Mx.length ≠ J0x.length) :=
      not_ne_iff.mpr (hlM.trans hlJ.symm)
    have hlR' : ¬(Rmidx.length ≠ J0x.length) :=
      not_ne_iff.mpr (hlR.trans hlJ.symm)
    have hK' : (m.K_op (List.replicate m.N 0)).length ≠ J0x.length := by
      rw [hlJ]
      exact hK
    unfold RawModel.init_solver RawModel.check_sizes
    simp only [hJ0, hMx, hRx, if_neg hlJ', if_neg hlM', if_neg hlR',
      if_pos hK']

/-- A model whose `K_op` returns one element instead of `N = 2`. -/
def cexRawBadK : RawModel where
  N := 2
  Nu := 1
  J0 := [1, 1]
  M := [1, 1]
  Rmid := fun _ => [0, 0]
  K_op := fun _ => [0]
  Rsv_op := fun x => x
  G := fun _ => [[0], [0]]
  Enl := fun _ => 0
  Fnl := fun x => x
  EandFnl := fun x => (0, x)

/-- Witness for C6 at `cexRawBadK`: construction fails with the error
naming `Kq`, the expected `2` elements and the received shape `(1,)`. -/
theorem C6_shape_validation_witness :
    bmul cexRawBadK.J0 (List.replicate cexRawBadK.N 0) = some [0, 0]
    ∧ ([0, 0] : List ℝ).length = cexRawBadK.N
    ∧ bmul cexRawBadK.M (List.replicate cexRawBadK.N 0) = some [0, 0]
    ∧ ([0, 0] : List ℝ).length = cexRawBadK.N
    ∧ bmul (cexRawBadK.Rmid (List.replicate cexRawBadK.N 0))
        (List.replicate cexRawBadK.N 0) = some [0, 0]
    ∧ ([0, 0] : List ℝ).length = cexRawBadK.N
    ∧ (cexRawBadK.K_op (List.replicate cexRawBadK.N 0)).length
        ≠ cexRawBadK.N
    ∧ cexRawBadK.init_solver
        = Except.error ("Kq must have " ++ toString cexRawBadK.N
          ++ " elements but has shape ("
          ++ toString
              (cexRawBadK.K_op (List.replicate cexRawBadK.N 0)).length
          ++ ",)") := by
  have h1 : bmul cexRawBadK.J0 (List.replicate cexRawBadK.N 0)
      = some [0, 0] := by
    norm_num [bmul, cexRawBadK, List.replicate]
  have h2 : ([0, 0] : List ℝ).length = cexRawBadK.N := rfl
  have h3 : bmul cexRawBadK.M (List.replicate cexRawBadK.N 0)
      = some [0, 0] := by
    norm_num [bmul, cexRawBadK, List.replicate]
  have h5 : bmul (cexRawBadK.Rmid (List.replicate cexRawBadK.N 0))
      (List.replicate cexRawBadK.N 0) = some [0, 0] := by
    norm_num [bmul, cexRawBadK, List.replicate]
  have h7 : (cexRawBadK.K_op (List.replicate cexRawBadK.N 0)).length
      ≠ cexRawBadK.N := by
    norm_num [cexRawBadK]
  exact ⟨h1, h2, h3, h2, h5, h2, h7,
    (C6_shape_validation cexRawBadK).2 [0, 0] [0, 0] [0, 0] h1 h2 h3 h2 h5
      h2 h7⟩

/-- A model whose `Rmid` returns a length-1 vector although `N = 2`. -/
def cexRawRmid : RawModel where
  N := 2
  Nu := 1
  J0 := [1, 1]
  M := [1, 1]
  Rmid := fun _ => [0]
  K_op := fun x => x
  Rsv_op := fun x => x
  G := fun _ => [[0], [0]]
  Enl := fun _ => 0
  Fnl := fun x => x
  EandFnl := fun x => (0, x)

/-- Counterexample to C6 as frozen: `Rmid` is a vector-returning model
operation, yet a model whose `Rmid` returns a single element with `N = 2`
passes construction silently — the product `Rmid(x) * x` broadcasts the
length-1 array over the length-2 probe, and no other check sees `Rmid`'s
own shape. -/
theorem C6_counterexample :
    (cexRawRmid.Rmid (List.replicate cexRawRmid.N 0)).length ≠ cexRawRmid.N
    ∧ cexRawRmid.init_solver = Except.ok cexRawRmid := by
  constructor
  · norm_num [cexRawRmid]
  · rfl

/-! ### Results storage (`results_storage.py`)

`ResultsStorage` preallocates numpy arrays over the `Nt` time samples and
`store` writes one step's diagnostics at index `i`.  Arrays are modelled
as total functions `ℕ → ℝ` (out-of-range indices are irrelevant to the
claims); `np.zeros` is the constant-zero function.  The `q_idx`/`p_idx`
options (`-1` = store all indices, `None` = store nothing) are modelled by
the Booleans `q_store`/`p_store` covering those two repository-exercised
settings; the metadata flags `SolverSetting`/`ModelSetting` only affect
file output and are omitted. -/

structure StorageConfig where
  Energy : Bool
  Power : Bool
  Drift : Bool
  SAV : Bool
  q_store : Bool
  p_store : Bool

/-- `DEFAULT_STORAGE_CONFIG`: everything on, `q_idx = p_idx = -1`. -/
def DEFAULT_STORAGE_CONFIG : StorageConfig where
  Energy := true
  Power := true
  Drift := true
  SAV := true
  q_store := true
  p_store := true

/-- The state of a `ResultsStorage` after `reserve`: the configuration,
the number of samples, the preallocated arrays, the previous momentum
`plast` and the advance counter `i` (fields keep the attribute names of
the source; `plast` and `i` are given before their first assignment the
placeholder values `0`). -/
structure ResultsStorage (N : ℕ) where
  cfg : StorageConfig
  Nt : ℕ
  Etot : ℕ → ℝ
  Ekin : ℕ → ℝ
  Eplin : ℕ → ℝ
  Epnl : ℕ → ℝ
  Ptot : ℕ → ℝ
  Pdiss : ℕ → ℝ
  Pext : ℕ → ℝ
  Pstored : ℕ → ℝ
  epsilon : ℕ → ℝ
  q : ℕ → Vec N
  p : ℕ → Vec N
  r : ℕ → ℝ
  plast : Vec N
  i : ℕ

/-- Single-entry array assignment `a[n] = v`. -/
def upd (f : ℕ → ℝ) (n : ℕ) (v : ℝ) : ℕ → ℝ :=
  fun k => if k = n then v else f k

/-- Single-entry assignment on an array of vectors. -/
def updV {N : ℕ} (f : ℕ → Vec N) (n : ℕ) (v : Vec N) : ℕ → Vec N :=
  fun k => if k = n then v else f k

/-- `reserve(t, model, solver)`: force `Energy` on whenever `Power` is on,
then zero-allocate every array (`np.zeros`). -/
def ResultsStorage.reserve {N : ℕ} (cfg : StorageConfig) (Nt : ℕ) :
    ResultsStorage N where
  cfg := { cfg with Energy := cfg.Energy || cfg.Power }
  Nt := Nt
  Etot := fun _ => 0
  Ekin := fun _ => 0
  Eplin := fun _ => 0
  Epnl := fun _ => 0
  Ptot := fun _ => 0
  Pdiss := fun _ => 0
  Pext := fun _ => 0
  Pstored := fun _ => 0
  epsilon := fun _ => 0
  q := fun _ => 0
  p := fun _ => 0
  r := fun _ => 0
  plast := fun _ => 0
  i := 0

/-- `store(q, p, r, epsilon, i, Rmid, G, u, solver)` for `Nu = 1`,
mirroring the statement order of the source.  The Power block runs only
for `i > 0` and reads the `Etot` entries written by the Energy block just
above; `solver.P_ext` returns a size-1 array whose single entry is what
numpy assigns into the scalar slot `Pext[i]`; `plast` is updated whenever
`Power` is on, including at `i = 0`. -/
def ResultsStorage.store {N : ℕ} (st : ResultsStorage N)
    (s : SAVSolver N 1) (q p : Vec N) (r epsilon : ℝ) (i : ℕ)
    (Rmid : Vec N) (G : Fin N → Fin 1 → ℝ) (u : Vec 1) :
    ResultsStorage N :=
  let st1 :=
    if st.cfg.Energy then
      let Ekin1 := upd st.Ekin i (s.Ek_tilde p)
      let Eplin1 := upd st.Eplin i (s.Ep_lin q)
      let Epnl1 := upd st.Epnl i (s.Ep_nl_sav r)
      { st with
        Ekin := Ekin1
        Eplin := Eplin1
        Epnl := Epnl1
        Etot := upd st.Etot i (Ekin1 i + Eplin1 i + Epnl1 i) }
    else st
  let st2 :=
    if st1.cfg.Drift then { st1 with epsilon := upd st1.epsilon i epsilon }
    else st1
  let st3 :=
    if st2.cfg.q_store then { st2 with q := updV st2.q i q } else st2
  let st4 :=
    if st3.cfg.p_store then { st3 with p := updV st3.p i p } else st3
  let st5 :=
    if st4.cfg.SAV then { st4 with r := upd st4.r i r } else st4
  let st6 :=
    if st5.cfg.Power then
      let st5' :=
        if 0 < i then
          let Pstored1 := upd st5.Pstored i
            (s.P_stored (st5.Etot (i - 1)) (st5.Etot i))
          let Pdiss1 := upd st5.Pdiss i (s.P_diss st5.plast p Rmid)
          let Pext1 := upd st5.Pext i (s.P_ext st5.plast p G u 0)
          { st5 with
            Pstored := Pstored1
            Pdiss := Pdiss1
            Pext := Pext1
            Ptot := upd st5.Ptot i (Pstored1 i + Pdiss1 i + Pext1 i) }
        else st5
      { st5' with plast := p }
    else st5
  { st6 with i := i + 1 }

/-- C10: with power diagnostics enabled, the sink skips the power balance
at step index 0 — the four power entries keep their zero allocation
everywhere after a `store` at `i = 0` on a freshly reserved storage, while
the energy scalars, `epsilon`, `q`, `p`, `r` are written at index 0 — and
for every state and every `i ≥ 1` the four power entries at `i` are set to
`P_stored` of the consecutive totals, `P_diss`, `P_ext` and their sum. -/
theorem C10_power_skips_first_step {N : ℕ} (s : SAVSolver N 1)
    (cfg : StorageConfig) (Nt : ℕ) (qv pv : Vec N) (rv ev : ℝ)
    (Rmid : Vec N) (G : Fin N → Fin 1 → ℝ) (u : Vec 1)
    (st : ResultsStorage N) (i : ℕ)
    (hE : cfg.Energy = true) (hP : cfg.Power = true)
    (hD : cfg.Drift = true) (hS : cfg.SAV = true)
    (hq : cfg.q_store = true) (hp : cfg.p_store = true)
    (hsE : st.cfg.Energy = true) (hsP : st.cfg.Power = true)
    (hi : 1 ≤ i) :
    (∀ k,
      ((ResultsStorage.reserve cfg Nt : ResultsStorage N).store s qv pv
        rv ev 0 Rmid G u).Pstored k = 0
      ∧ ((ResultsStorage.reserve cfg Nt : ResultsStorage N).store s qv pv
        rv ev 0 Rmid G u).Pdiss k = 0
      ∧ ((ResultsStorage.reserve cfg Nt : ResultsStorage N).store s qv pv
        rv ev 0 Rmid G u).Pext k = 0
      ∧ ((ResultsStorage.reserve cfg Nt : ResultsStorage N).store s qv pv
        rv ev 0 Rmid G u).Ptot k = 0)
    ∧ ((ResultsStorage.reserve cfg Nt : ResultsStorage N).store s qv pv
        rv ev 0 Rmid G u).Ekin 0 = s.Ek_tilde pv
    ∧ ((ResultsStorage.reserve cfg Nt : ResultsStorage N).store s qv pv
        rv ev 0 Rmid G u).Eplin 0 = s.Ep_lin qv
    ∧ ((ResultsStorage.reserve cfg Nt : ResultsStorage N).store s qv pv
        rv ev 0 Rmid G u).Epnl 0 = s.Ep_nl_sav rv
    ∧ ((ResultsStorage.reserve cfg Nt : ResultsStorage N).store s qv pv
        rv ev 0 Rmid G u).Etot 0
        = s.Ek_tilde pv + s.Ep_lin qv + s.Ep_nl_sav rv
    ∧ ((ResultsStorage.reserve cfg Nt : ResultsStorage N).store s qv pv
        rv ev 0 Rmid G u).epsilon 0 = ev
    ∧ ((ResultsStorage.reserve cfg Nt : ResultsStorage N).store s qv pv
        rv ev 0 Rmid G u).q 0 = qv
    ∧ ((ResultsStorage.reserve cfg Nt : ResultsStorage N).store s qv pv
        rv ev 0 Rmid G u).p 0 = pv
    ∧ ((ResultsStorage.reserve cfg Nt : ResultsStorage N).store s qv pv
        rv ev 0 Rmid G u).r 0 = rv
    ∧ (st.store s qv pv rv ev i Rmid G u).Pstored i
        = s.P_stored (st.Etot (i - 1))
            (s.Ek_tilde pv + s.Ep_lin qv + s.Ep_nl_sav rv)
    ∧ (st.store s qv pv rv ev i Rmid G u).Pdiss i
        = s.P_diss st.plast pv Rmid
    ∧ (st.store s qv pv rv ev i Rmid G u).Pext i
        = s.P_ext st.plast pv G u 0
    ∧ (st.store s qv pv rv ev i Rmid G u).Ptot i
        = s.P_stored (st.Etot (i - 1))
            (s.Ek_tilde pv + s.Ep_lin qv + s.Ep_nl_sav rv)
          + s.P_diss st.plast pv Rmid + s.P_ext st.plast pv G u 0 := by
  have h0 : 0 < i := hi
  have hne : i - 1 ≠ i := Nat.ne_of_lt (Nat.sub_lt h0 one_pos)
  refine ⟨fun k => ⟨?_, ?_, ?_, ?_⟩, ?_, ?_, ?_, ?_, ?_, ?_, ?_, ?_,
    ?_, ?_, ?_, ?_⟩ <;>
  first
  | (simp [ResultsStorage.store, ResultsStorage.reserve, upd, updV,
      hE, hP, hD, hS, hq, hp]
     done)
  | (cases hsD : st.cfg.Drift <;> cases hsq : st.cfg.q_store <;>
      cases hsp : st.cfg.p_store <;> cases hsS : st.cfg.SAV <;>
      simp [ResultsStorage.store, upd, updV, hsE, hsP, hsD, hsq, hsp,
        hsS, h0, hne])

/-- Witness for C10 at the default configuration, the trivial solver,
`Nt = 3`, zero data, and step index `i = 1` on the freshly reserved
storage. -/
theorem C10_power_skips_first_step_witness :
    DEFAULT_STORAGE_CONFIG.Power = true
    ∧ (ResultsStorage.reserve DEFAULT_STORAGE_CONFIG 3
        : ResultsStorage 1).cfg.Energy = true
    ∧ (1:ℕ) ≤ 1
    ∧ ((∀ k,
      ((ResultsStorage.reserve DEFAULT_STORAGE_CONFIG 3
          : ResultsStorage 1).store trivialSolver 0 0 0 0 0 0
          (fun _ _ => 0) 0).Pstored k = 0
      ∧ ((ResultsStorage.reserve DEFAULT_STORAGE_CONFIG 3
          : ResultsStorage 1).store trivialSolver 0 0 0 0 0 0
          (fun _ _ => 0) 0).Pdiss k = 0
      ∧ ((ResultsStorage.reserve DEFAULT_STORAGE_CONFIG 3
          : ResultsStorage 1).store trivialSolver 0 0 0 0 0 0
          (fun _ _ => 0) 0).Pext k = 0
      ∧ ((ResultsStorage.reserve DEFAULT_STORAGE_CONFIG 3
          : ResultsStorage 1).store trivialSolver 0 0 0 0 0 0
          (fun _ _ => 0) 0).Ptot k = 0)
    ∧ ((ResultsStorage.reserve DEFAULT_STORAGE_CONFIG 3
        : ResultsStorage 1).store trivialSolver 0 0 0 0 0 0
        (fun _ _ => 0) 0).Ekin 0 = trivialSolver.Ek_tilde 0
    ∧ ((ResultsStorage.reserve DEFAULT_STORAGE_CONFIG 3
        : ResultsStorage 1).store trivialSolver 0 0 0 0 0 0
        (fun _ _ => 0) 0).Eplin 0 = trivialSolver.Ep_lin 0
    ∧ ((ResultsStorage.reserve DEFAULT_STORAGE_CONFIG 3
        : ResultsStorage 1).store trivialSolver 0 0 0 0 0 0
        (fun _ _ => 0) 0).Epnl 0 = trivialSolver.Ep_nl_sav 0
    ∧ ((ResultsStorage.reserve DEFAULT_STORAGE_CONFIG 3
        : ResultsStorage 1).store trivialSolver 0 0 0 0 0 0
        (fun _ _ => 0) 0).Etot 0
        = trivialSolver.Ek_tilde 0 + trivialSolver.Ep_lin 0
          + trivialSolver.Ep_nl_sav 0
    ∧ ((ResultsStorage.reserve DEFAULT_STORAGE_CONFIG 3
        : ResultsStorage 1).store trivialSolver 0 0 0 0 0 0
        (fun _ _ => 0) 0).epsilon 0 = 0
    ∧ ((ResultsStorage.reserve DEFAULT_STORAGE_CONFIG 3
        : ResultsStorage 1).store trivialSolver 0 0 0 0 0 0
        (fun _ _ => 0) 0).q 0 = 0
    ∧ ((ResultsStorage.reserve DEFAULT_STORAGE_CONFIG 3
        : ResultsStorage 1).store trivialSolver 0 0 0 0 0 0
        (fun _ _ => 0) 0).p 0 = 0
    ∧ ((ResultsStorage.reserve DEFAULT_STORAGE_CONFIG 3
        : ResultsStorage 1).store trivialSolver 0 0 0 0 0 0
        (fun _ _ => 0) 0).r 0 = 0
    ∧ ((ResultsStorage.reserve DEFAULT_STORAGE_CONFIG 3
        : ResultsStorage 1).store trivialSolver 0 0 0 0 1 0
        (fun _ _ => 0) 0).Pstored 1
        = trivialSolver.P_stored
            ((ResultsStorage.reserve DEFAULT_STORAGE_CONFIG 3
              : ResultsStorage 1).Etot (1 - 1))
            (trivialSolver.Ek_tilde 0 + trivialSolver.Ep_lin 0
              + trivialSolver.Ep_nl_sav 0)
    ∧ ((ResultsStorage.reserve DEFAULT_STORAGE_CONFIG 3
        : ResultsStorage 1).store trivialSolver 0 0 0 0 1 0
        (fun _ _ => 0) 0).Pdiss 1
        = trivialSolver.P_diss
            (ResultsStorage.reserve DEFAULT_STORAGE_CONFIG 3
              : ResultsStorage 1).plast 0 0
    ∧ ((ResultsStorage.reserve DEFAULT_STORAGE_CONFIG 3
        : ResultsStorage 1).store trivialSolver 0 0 0 0 1 0
        (fun _ _ => 0) 0).Pext 1
        = trivialSolver.P_ext
            (ResultsStorage.reserve DEFAULT_STORAGE_CONFIG 3
              : ResultsStorage 1).plast 0 (fun _ _ => 0) 0 0
    ∧ ((ResultsStorage.reserve DEFAULT_STORAGE_CONFIG 3
        : ResultsStorage 1).store trivialSolver 0 0 0 0 1 0
        (fun _ _ => 0) 0).Ptot 1
        = trivialSolver.P_stored
            ((ResultsStorage.reserve DEFAULT_STORAGE_CONFIG 3
              : ResultsStorage 1).Etot (1 - 1))
            (trivialSolver.Ek_tilde 0 + trivialSolver.Ep_lin 0
              + trivialSolver.Ep_nl_sav 0)
          + trivialSolver.P_diss
              (ResultsStorage.reserve DEFAULT_STORAGE_CONFIG 3
                : ResultsStorage 1).plast 0 0
          + trivialSolver.P_ext
              (ResultsStorage.reserve DEFAULT_STORAGE_CONFIG 3
                : ResultsStorage 1).plast 0 (fun _ _ => 0) 0 0) :=
  ⟨rfl, rfl, le_refl 1,
    C10_power_skips_first_step trivialSolver DEFAULT_STORAGE_CONFIG 3
      0 0 0 0 0 (fun _ _ => 0) 0
      (ResultsStorage.reserve DEFAULT_STORAGE_CONFIG 3) 1
      rfl rfl rfl rfl rfl rfl rfl rfl (le_refl 1)⟩

end SAVSim

end
